import Mathlib

/-!
# Verification of the job-autopilot form-fill engine

This development gives a shallow embedding, in Lean 4, of the field-resolution
and autofill engine of the `job-autopilot` repository (the platform adapters in
`src/apply/ashby.ts` and `src/apply/ashby_mac.ts`, each of which is a
concatenation of several adapter variants), and proves (or refutes) the frozen
specification claims about it.

Modelling conventions, used uniformly below:

* JavaScript string primitives (`trim`, `toLowerCase`, `startsWith`,
  `includes`, `endsWith`, `split`) are rendered as executable Lean functions
  on `List Char` (`jsTrim`, `jsToLower`, ...) with JS semantics; case
  conversion is the ASCII conversion of `Char.toLower` / `Char.toUpper`,
  which matches the repository's inputs (names, CSS selectors, state names).
* Asynchronous Playwright operations are modelled by a deterministic
  environment oracle (`Env`): every awaited primitive (visibility probe,
  value read, click, fill, ...) consumes one tick of a global counter and is
  answered by the oracle, keyed by the tick and by a structured description
  (`LocE`) of the Playwright locator expression the source constructs.  An
  oracle answer of `none` (or `false` for action primitives) means the
  awaited promise rejected.  Rejections propagate in an exception monad `M`
  unless the source wraps the call in `try`/`catch` or `.catch(...)`, which
  is rendered by the `mCatch` combinator.  Performed page mutations (fills,
  clicks, key presses, ...) are recorded in an action trace so theorems can
  speak about which fields were written.
* `console.log` calls, `scrollIntoViewIfNeeded().catch(() => ...)` and other
  caught, effect-free awaits with no data flow are omitted; timeout
  magnitudes are absorbed by the oracle.  CSS selector strings are kept
  verbatim except that embedded quote characters are dropped (they are only
  used as opaque keys).  WHATWG `URL` objects are modelled as
  hostname/pathname records (`JsUrl`); `new URL(...)` parsing is supplied by
  the environment, and the record's `toString` renders hostname ++ pathname.
-/

/-! ## JS string primitives, rendered at the character-list level -/

/-- The apostrophe character `'` (used in name punctuation and selectors). -/
def aposC : Char := Char.ofNat 39

/-- The right single-quotation character (U+2019), a separator in
`toProperNameCase`. -/
def rsquoC : Char := Char.ofNat 8217

/-- Left curly brace character (a regex special in `escapeRegex`). -/
def lcurlC : Char := Char.ofNat 123

/-- Right curly brace character (a regex special in `escapeRegex`). -/
def rcurlC : Char := Char.ofNat 125

/-- A one-character string holding an apostrophe. -/
def sqS : String := String.singleton aposC

/-- JS `String.prototype.trim`: strip leading and trailing whitespace. -/
def jsTrim (s : String) : String :=
  String.mk (((s.data.dropWhile Char.isWhitespace).reverse.dropWhile
    Char.isWhitespace).reverse)

/-- JS `String.prototype.toLowerCase` (ASCII range). -/
def jsToLower (s : String) : String :=
  String.mk (s.data.map Char.toLower)

/-- JS `String.prototype.startsWith`. -/
def jsStartsWith (s pre : String) : Bool :=
  pre.data.isPrefixOf s.data

/-- JS `String.prototype.endsWith`. -/
def jsEndsWith (s suf : String) : Bool :=
  suf.data.isSuffixOf s.data

/-- Helper for `jsIncludes`: is `needle` a contiguous sublist of the hay? -/
def listIsSub (needle : List Char) : List Char → Bool
  | [] => needle.isEmpty
  | c :: t => needle.isPrefixOf (c :: t) || listIsSub needle t

/-- JS `String.prototype.includes` (substring containment). -/
def jsIncludes (s sub : String) : Bool :=
  listIsSub sub.data s.data

/-- Splitter core: split a character list at every separator (per the
predicate), keeping empty pieces, as JS `split` with a one-character-class
regex does. -/
def splitPredGo (p : Char → Bool) : List Char → List Char → List String
  | [], cur => [String.mk cur.reverse]
  | c :: cs, cur =>
    if p c then String.mk cur.reverse :: splitPredGo p cs []
    else splitPredGo p cs (c :: cur)

/-- JS `String.prototype.split` with a single-character-class separator
regex (or a one-character separator string). -/
def jsSplit (p : Char → Bool) (s : String) : List String :=
  splitPredGo p s.data []

/-- Core of `splitWs`: collect the maximal whitespace-free runs of a
character list. -/
def wsTokensGo : List Char → List Char → List String
  | [], cur => if cur.isEmpty then [] else [String.mk cur.reverse]
  | c :: cs, cur =>
    if c.isWhitespace then
      if cur.isEmpty then wsTokensGo cs []
      else String.mk cur.reverse :: wsTokensGo cs []
    else wsTokensGo cs (c :: cur)

/-- The repository's recurring `.trim().split(/\s+/).filter(Boolean)`
idiom: the whitespace-separated tokens of a string. -/
def splitWs (s : String) : List String :=
  wsTokensGo s.data []

/-- JS truthiness of an optional string (`undefined` and `""` are falsy). -/
def optTruthy (v : Option String) : Bool :=
  v.getD "" ≠ ""

/-- `escapeRegex` (src/apply/ashby.ts): backslash-escape every regex
metacharacter, via `s.replace(/[.*+?^$()|[\]\\{}]/g, "\\$&")`. -/
def regexSpecials : List Char :=
  ['.', '*', '+', '?', '^', '$', lcurlC, rcurlC, '(', ')', '|', '[', ']', '\\']

/-- `escapeRegex` from the adapters. -/
def escapeRegex (s : String) : String :=
  String.mk (s.data.foldr
    (fun c acc => if c ∈ regexSpecials then '\\' :: c :: acc else c :: acc) [])

/-! ## Normalization library (pure, no I/O) -/

/-- The `"Yes" | "No"` TypeScript union used by the Yes/No resolvers. -/
inductive YN where
  | yes
  | no
deriving DecidableEq

/-- Render a `YN` as the literal string the source passes around. -/
def YN.text : YN → String
  | .yes => "Yes"
  | .no => "No"

/-- `normalizeYesNo` (src/apply/ashby.ts lines 508-514, identical copy in
src/apply/ashby_mac.ts lines 99-105): first character of a trimmed,
lowercased free-text answer decides Yes/No; falsy input or unrecognized
text falls back to the caller-supplied default. -/
def normalizeYesNo (value : Option String) (fallback : YN) : YN :=
  match value with
  | none => fallback
  | some s =>
    if s = "" then fallback
    else
      let v := jsToLower (jsTrim s)
      if jsStartsWith v "y" then YN.yes
      else if jsStartsWith v "n" then YN.no
      else fallback

/-- The first/last name record returned by `getFirstLastName`. -/
structure FirstLast where
  first : String
  last : String
deriving DecidableEq

/-- The subset of the candidate `Profile` record read by the adapters.
Optional fields model TypeScript optional/undefined-able properties. -/
structure WorkAuth where
  currentStatus : Option String
  authorizedToWorkInUS : Option String

/-- The `sponsorship` sub-record of a profile. -/
structure Sponsorship where
  requiresSponsorshipNow : Option String
  requiresSponsorshipInFuture : Option String

/-- The `defaults` sub-record of a profile. -/
structure Defaults where
  authorizedToWork : Option String
  needsSponsorship : Option String
  willNowOrInFutureRequireSponsorship : Option String
  salaryExpectation : Option String

/-- The `preferences` sub-record of a profile. -/
structure Preferences where
  willingToRelocateOrCommute : Option String

/-- A JS value that may be a string, an array of strings, or undefined
(the demographic profile fields are consumed at this loose type). -/
inductive JVal where
  | undef
  | str (s : String)
  | arr (l : List String)

/-- `Array.isArray(value) ? value : value ? [value] : []`. -/
def JVal.toList : JVal → List String
  | .undef => []
  | .str s => if s = "" then [] else [s]
  | .arr l => l

/-- The `eeo` demographic sub-record of a profile. -/
structure Eeo where
  gender : JVal
  raceEthnicity : JVal
  hispanicOrLatino : JVal
  veteranStatus : JVal
  disabilityStatus : JVal

/-- The candidate profile record (fields accessed by the adapters). -/
structure Profile where
  fullName : String
  firstName : Option String
  lastName : Option String
  email : String
  phone : String
  location : String
  linkedin : String
  github : String
  portfolio : String
  resumePdfPath : String
  workAuthorization : Option WorkAuth
  sponsorship : Option Sponsorship
  defaults : Option Defaults
  preferences : Option Preferences
  veteran : Option String
  eeo : Option Eeo

/-- `getFirstLastName` (src/apply/ashby.ts lines 516-524 and the identical
copies): prefer explicit first/last fields, else split the full name on
whitespace. -/
def getFirstLastName (profile : Profile) : FirstLast :=
  if optTruthy profile.firstName || optTruthy profile.lastName then
    { first := profile.firstName.getD "", last := profile.lastName.getD "" }
  else
    match splitWs profile.fullName with
    | [] => { first := "", last := "" }
    | [only] => { first := only, last := "" }
    | first :: rest => { first := first, last := String.intercalate " " rest }

/-- `looksAllCapsName` (src/apply/ashby.ts lines 530-542): at least two
whitespace-separated words, no ASCII lowercase letter, at least one ASCII
uppercase letter, and only letters, whitespace, periods, apostrophes and
hyphens. -/
def looksAllCapsName (s : String) : Bool :=
  let t := jsTrim s
  if t = "" then false
  else if (splitWs t).length < 2 then false
  else if t.data.any (fun c => 'a' ≤ c && c ≤ 'z') then false
  else if !(t.data.any (fun c => 'A' ≤ c && c ≤ 'Z')) then false
  else if !(t.data.all
      (fun c => ('A' ≤ c && c ≤ 'Z') || c.isWhitespace || c = '.' ||
        c = aposC || c = '-')) then false
  else true

/-- Core of the `raw.split(/([-'’])/)` call in `toProperNameCase`: split on
hyphen/apostrophe separators, keeping each separator as its own piece (as a
JS capture-group split does). -/
def splitKeepSepsGo : List Char → List Char → List String
  | [], cur => [String.mk cur.reverse]
  | c :: cs, cur =>
    if c = '-' ∨ c = aposC ∨ c = rsquoC then
      String.mk cur.reverse :: String.singleton c :: splitKeepSepsGo cs []
    else splitKeepSepsGo cs (c :: cur)

/-- `raw.split(/([-'’])/)` from `toProperNameCase`. -/
def splitKeepSeps (s : String) : List String :=
  splitKeepSepsGo s.data []

/-- The per-segment mapper inside `toProperNameCase`: separators and empty
segments pass through, any other segment gets its first character
upper-cased and the rest lower-cased. -/
def titleSeg (seg : String) : String :=
  if seg = "-" ∨ seg = sqS ∨ seg = String.singleton rsquoC then seg
  else
    match seg.data with
    | [] => seg
    | c :: rest => String.mk (c.toUpper :: rest.map Char.toLower)

/-- The ordinal suffixes preserved verbatim by `toProperNameCase`. -/
def properSuffixes : List String := ["II", "III", "IV", "V"]

/-- The uppercase spellings of the name particles `toProperNameCase`
lowercases when they are not the first token. -/
def lowercaseParticles : List String :=
  ["DE", "DA", "DOS", "DEL", "VAN", "VON", "DI", "LA", "LE"]

/-- The per-token mapper of `toProperNameCase` (the `parts.map((p, idx))`
callback, src/apply/ashby.ts lines 557-581). -/
def properToken (idx : Nat) (p : String) : String :=
  let raw := jsTrim p
  if raw ∈ properSuffixes then raw
  else if raw = "JR" ∨ raw = "SR" then
    (match raw.data with
     | [] => "."
     | c :: rest => String.mk (c :: rest.map Char.toLower) ++ ".")
  else if idx ≠ 0 ∧ raw ∈ lowercaseParticles then jsToLower raw
  else String.join ((splitKeepSeps raw).map titleSeg)

/-- JS `Array.prototype.map` with the element index (the `(p, idx)`
callback form), rendered as index-threading recursion. -/
def mapWithIdx (f : Nat → String → String) : Nat → List String → List String
  | _, [] => []
  | i, x :: xs => f i x :: mapWithIdx f (i + 1) xs

/-- `toProperNameCase` (src/apply/ashby.ts lines 551-584): title-case an
all-caps name, preserving suffixes, periods after Jr/Sr, lowercase
particles, and hyphen/apostrophe-separated segments. -/
def toProperNameCase (allCaps : String) : String :=
  let parts := splitWs allCaps
  let cased := mapWithIdx properToken 0 parts
  String.intercalate " " cased

/-- The 50-entry full-state-name → abbreviation table of
`extractStateOptions` (src/apply/ashby.ts lines 972-1023). -/
def stateAbbrTable : List (String × String) :=
  [("Alabama", "AL"), ("Alaska", "AK"), ("Arizona", "AZ"), ("Arkansas", "AR"),
   ("California", "CA"), ("Colorado", "CO"), ("Connecticut", "CT"),
   ("Delaware", "DE"), ("Florida", "FL"), ("Georgia", "GA"), ("Hawaii", "HI"),
   ("Idaho", "ID"), ("Illinois", "IL"), ("Indiana", "IN"), ("Iowa", "IA"),
   ("Kansas", "KS"), ("Kentucky", "KY"), ("Louisiana", "LA"), ("Maine", "ME"),
   ("Maryland", "MD"), ("Massachusetts", "MA"), ("Michigan", "MI"),
   ("Minnesota", "MN"), ("Mississippi", "MS"), ("Missouri", "MO"),
   ("Montana", "MT"), ("Nebraska", "NE"), ("Nevada", "NV"),
   ("New Hampshire", "NH"), ("New Jersey", "NJ"), ("New Mexico", "NM"),
   ("New York", "NY"), ("North Carolina", "NC"), ("North Dakota", "ND"),
   ("Ohio", "OH"), ("Oklahoma", "OK"), ("Oregon", "OR"),
   ("Pennsylvania", "PA"), ("Rhode Island", "RI"), ("South Carolina", "SC"),
   ("South Dakota", "SD"), ("Tennessee", "TN"), ("Texas", "TX"),
   ("Utah", "UT"), ("Vermont", "VT"), ("Virginia", "VA"),
   ("Washington", "WA"), ("West Virginia", "WV"), ("Wisconsin", "WI"),
   ("Wyoming", "WY")]

/-- `extractStateOptions` (src/apply/ashby.ts lines 967-1026): split the
location on commas, trim each piece, and turn the second piece into the
candidate list for the State dropdown. -/
def extractStateOptions (location : Option String) : List String :=
  match location with
  | none => []
  | some loc =>
    if loc = "" then []
    else
      let parts := (jsSplit (fun c => c = ',') loc).map jsTrim
      match parts with
      | _ :: state :: _ =>
        let abbr := (stateAbbrTable.lookup state).getD ""
        if abbr ≠ "" then [state, abbr] else [state]
      | _ => []

/-- `extractStateName` (src/apply/ashby_mac.ts, Lever section): the trimmed
second comma-separated piece of the location, or `""`. -/
def extractStateName (location : Option String) : String :=
  match location with
  | none => ""
  | some loc =>
    if loc = "" then ""
    else
      match (jsSplit (fun c => c = ',') loc).map jsTrim with
      | _ :: state :: _ => state
      | _ => ""

/-- `normalizeDigits` (src/apply/ashby.ts lines 1117-1119): strip every
non-digit character. -/
def normalizeDigits (input : String) : String :=
  String.mk (input.data.filter Char.isDigit)

/-- JS `Set`-insertion order dedup used by the demographic normalizers:
append a value unless it is already present. -/
def addUniq (acc : List String) (v : String) : List String :=
  if v ∈ acc then acc else acc ++ [v]

/-- `normalizeGenderOptions` (src/apply/ashby.ts lines 954-965). -/
def normalizeGenderOptions (value : JVal) : List String :=
  value.toList.foldl
    (fun acc v =>
      if v = "" then acc
      else
        let t := jsToLower v
        if t = "man" ∨ t = "male" then addUniq acc "Male"
        else if t = "woman" ∨ t = "female" then addUniq acc "Female"
        else addUniq acc v)
    []

/-- `normalizeVeteranOptions` (src/apply/ashby.ts lines 1028-1045). -/
def normalizeVeteranOptions (value : JVal) : List String :=
  value.toList.foldl
    (fun acc v =>
      if v = "" then acc
      else
        let t := jsToLower v
        if jsIncludes t "not a veteran" || jsIncludes t "not a protected" then
          addUniq acc "I am not a protected veteran"
        else if jsIncludes t "protected veteran" || jsIncludes t "identify" then
          addUniq acc
            "I identify as one or more of the classifications of a protected veteran"
        else if jsIncludes t ("don" ++ sqS ++ "t wish") || jsIncludes t "prefer not" then
          addUniq acc ("I don" ++ sqS ++ "t wish to answer")
        else addUniq acc v)
    []

/-- `normalizeDisabilityOptions` (src/apply/ashby.ts lines 1047-1064). -/
def normalizeDisabilityOptions (value : JVal) : List String :=
  value.toList.foldl
    (fun acc v =>
      if v = "" then acc
      else
        let t := jsToLower v
        if jsIncludes t "no disability" ||
            (jsIncludes t "no" && jsIncludes t "disability") then
          addUniq acc "No, I do not have a disability and have not had one in the past"
        else if jsIncludes t "yes" || jsIncludes t "disability" then
          addUniq acc "Yes, I have a disability, or have had one in the past"
        else if jsIncludes t "prefer not" || jsIncludes t "do not want" then
          addUniq acc "I do not want to answer"
        else addUniq acc v)
    []

/-! ## Character-level helper lemmas -/

/-- Spec-side per-token casing rule written from the claim's words: the
ordinal suffixes II/III/IV/V are kept verbatim, JR becomes `Jr.` and SR
becomes `Sr.`, the listed particles are lowercased unless first, and
otherwise each hyphen/apostrophe-separated segment is title-cased
independently. -/
def claimNameToken (idx : Nat) (tok : String) : String :=
  if tok = "II" ∨ tok = "III" ∨ tok = "IV" ∨ tok = "V" then tok
  else if tok = "JR" then "Jr."
  else if tok = "SR" then "Sr."
  else if idx ≠ 0 ∧ (tok = "DE" ∨ tok = "DA" ∨ tok = "DOS" ∨ tok = "DEL" ∨
      tok = "VAN" ∨ tok = "VON" ∨ tok = "DI" ∨ tok = "LA" ∨ tok = "LE") then
    jsToLower tok
  else String.join ((splitKeepSeps tok).map titleSeg)

/-- Spec-side state extraction following the claim's words literally:
split at the FIRST comma and use everything after it (trimmed) as the
state token. -/
def claimStateCandidates (location : String) : List String :=
  match jsSplit (fun c => c = ',') location with
  | _city :: piece :: rest =>
    let stateTok := jsTrim (String.intercalate "," (piece :: rest))
    (match stateAbbrTable.lookup stateTok with
     | some ab => [stateTok, ab]
     | none => [stateTok])
  | _ => []

/-- Structured description of a Playwright locator expression as the
source constructs it (used as the element-addressing key of the
environment oracle). -/
inductive LocE where
  | cssFirst (sel : String)
  | cssAll (sel : String)
  | cssHasText (sel : String) (pat : String)
  | nth (base : LocE) (i : Nat)
  | firstOf (base : LocE)
  | textMatch (pat : String)
  | roleBtn (pat : String)
  | roleOption (name : String)
  | insideCss (outer : LocE) (sel : String)
  | insideText (outer : LocE) (pat : String)
  | filterText (base : LocE) (pat : String)
  | anc (base : LocE) (kinds : String) (lvl : Nat)
  | following (base : LocE) (expr : String)
deriving DecidableEq, Repr

/-- A page mutation performed during a run (most recent first in the
trace). -/
inductive Act where
  | fillAct (l : LocE) (v : String)
  | typeAct (l : LocE) (v : String)
  | clickAct (l : LocE)
  | pressAct (l : LocE) (key : String)
  | kbdAct (key : String)
  | selOptAct (l : LocE) (lbl : String)
  | filesAct (l : LocE) (path : String)
  | gotoAct (u : String)
  | evalReadAct (l : LocE)
  | pageEvalAct (tag : String)
deriving DecidableEq, Repr

/-- The mutable run state: the oracle tick, the trace of performed
mutations, and the module-level `answeredQuestionBlocks` registry of
src/apply/ashby_mac.ts lines 5-6. -/
structure St where
  tick : Nat
  trace : List Act
  reg : List String
deriving DecidableEq, Repr

/-- A parsed WHATWG URL, reduced to the fields the adapters read. -/
structure JsUrl where
  hostname : String
  pathname : String
deriving DecidableEq, Repr

/-- Rendering of `URL.prototype.toString` for the reduced record. -/
def urlToString (u : JsUrl) : String :=
  u.hostname ++ u.pathname

/-- The attribute record produced by the `evaluateAll` call in the Lever
variant's `pickInputInBlock`. -/
structure InputAttrs where
  nameAttr : String
  idAttr : String
  ariaAttr : String
  placeholderAttr : String
  dataqaAttr : String
deriving DecidableEq

/-- The deterministic environment oracle standing for the live page: each
field answers one kind of awaited Playwright primitive, keyed by the
global tick and the locator; `none` (resp. `false` for action primitives)
means the awaited promise rejects. -/
structure Env where
  visible : Nat → LocE → Option Bool
  inputVal : Nat → LocE → Option String
  textVal : Nat → LocE → Option String
  attr : Nat → LocE → String → Option (Option String)
  countQ : Nat → LocE → Option Nat
  evalSel : Nat → LocE → Option Bool
  evalId : Nat → LocE → Option String
  evalAttrs : Nat → LocE → Option (List InputAttrs)
  pageEval : Nat → Option Bool
  fillOk : Nat → LocE → Bool
  clickOk : Nat → LocE → Bool
  typeOk : Nat → LocE → Bool
  pressOk : Nat → LocE → Bool
  kbdOk : Nat → Bool
  selOptOk : Nat → LocE → Bool
  filesOk : Nat → LocE → Bool
  waitOk : Nat → Bool
  waitForOk : Nat → LocE → Bool
  gotoOk : Bool
  pageUrl : String
  parsedUrl : Option JsUrl
  leverDebug : Bool
  isMacOs : Bool

/-- The adapter computation monad: an environment-indexed state-and-
exception monad.  A raised (uncaught) promise rejection is `.error s`,
carrying the state at the point of the raise. -/
def M (α : Type) : Type :=
  Env → St → Except St (α × St)

/-- Bind for `M`: rejections propagate. -/
def mBind (m : M α) (f : α → M β) : M β := fun e s =>
  match m e s with
  | .ok (a, s') => f a e s'
  | .error s' => .error s'

instance : Monad M where
  pure a := fun _ s => .ok (a, s)
  bind := mBind

/-- `try { ... } catch { ... }` / `.catch(() => dflt)`: a rejection is
converted into the default value, keeping the state reached so far. -/
def mCatch (m : M α) (dflt : α) : M α := fun e s =>
  match m e s with
  | .ok r => .ok r
  | .error s' => .ok (dflt, s')

/-- Advance the oracle tick (every awaited primitive consumes one). -/
def bump (s : St) : St :=
  { s with tick := s.tick + 1 }

/-- Record a performed page mutation. -/
def record (a : Act) (s : St) : St :=
  { s with trace := a :: s.trace }

/-- `locator.isVisible(...)` (raises on oracle `none`). -/
def isVisR (l : LocE) : M Bool := fun e s =>
  match e.visible s.tick l with
  | none => .error (bump s)
  | some b => .ok (b, bump s)

/-- `locator.isVisible(...).catch(() => false)`. -/
def isVisC (l : LocE) : M Bool :=
  mCatch (isVisR l) false

/-- `locator.inputValue()` (raises on oracle `none`). -/
def valR (l : LocE) : M String := fun e s =>
  match e.inputVal s.tick l with
  | none => .error (bump s)
  | some v => .ok (v, bump s)

/-- `locator.inputValue().catch(() => "")`. -/
def valC (l : LocE) : M String :=
  mCatch (valR l) ""

/-- `locator.textContent().catch(() => "")`; a `null` text content and a
rejection are both rendered as `""` (the callers only test truthiness). -/
def textC (l : LocE) : M String := fun e s =>
  .ok ((e.textVal s.tick l).getD "", bump s)

/-- `locator.getAttribute(name)` (raises on outer oracle `none`; the inner
option is the JS `string | null` result). -/
def attrR (l : LocE) (name : String) : M (Option String) := fun e s =>
  match e.attr s.tick l name with
  | none => .error (bump s)
  | some v => .ok (v, bump s)

/-- `locator.fill(v)`; records the mutation on success. -/
def fillR (l : LocE) (v : String) : M Unit := fun e s =>
  if e.fillOk s.tick l then .ok ((), record (.fillAct l v) (bump s))
  else .error (bump s)

/-- `locator.click(...)`; records the mutation on success. -/
def clickR (l : LocE) : M Unit := fun e s =>
  if e.clickOk s.tick l then .ok ((), record (.clickAct l) (bump s))
  else .error (bump s)

/-- `locator.type(v, ...)`; records the mutation on success. -/
def typeR (l : LocE) (v : String) : M Unit := fun e s =>
  if e.typeOk s.tick l then .ok ((), record (.typeAct l v) (bump s))
  else .error (bump s)

/-- `locator.press(key)`; records the mutation on success. -/
def pressR (l : LocE) (key : String) : M Unit := fun e s =>
  if e.pressOk s.tick l then .ok ((), record (.pressAct l key) (bump s))
  else .error (bump s)

/-- `page.keyboard.press(key).catch(() => {})` (always caught at the call
sites; records the key press when it succeeds). -/
def kbdC (key : String) : M Unit := fun e s =>
  if e.kbdOk s.tick then .ok ((), record (.kbdAct key) (bump s))
  else .ok ((), bump s)

/-- `select.selectOption({ label })`; raises when the option cannot be
selected (every call site catches). -/
def selOptR (l : LocE) (lbl : String) : M Unit := fun e s =>
  if e.selOptOk s.tick l then .ok ((), record (.selOptAct l lbl) (bump s))
  else .error (bump s)

/-- `input.setInputFiles(path, ...)`; raises when the upload is refused. -/
def filesR (l : LocE) (path : String) : M Unit := fun e s =>
  if e.filesOk s.tick l then .ok ((), record (.filesAct l path) (bump s))
  else .error (bump s)

/-- `locator.count()` (raises on oracle `none`). -/
def countR (l : LocE) : M Nat := fun e s =>
  match e.countQ s.tick l with
  | none => .error (bump s)
  | some n => .ok (n, bump s)

/-- `locator.count().catch(() => dflt)`. -/
def countC (l : LocE) (dflt : Nat) : M Nat :=
  mCatch (countR l) dflt

/-- `page.waitForTimeout(ms)` (raises if the page goes away). -/
def waitR : M Unit := fun e s =>
  if e.waitOk s.tick then .ok ((), bump s) else .error (bump s)

/-- `locator.waitFor({ state: "visible", ... })` / `page.waitForSelector`:
resolves when the target became visible in time, rejects otherwise. -/
def waitForR (l : LocE) : M Unit := fun e s =>
  if e.waitForOk s.tick l then .ok ((), bump s) else .error (bump s)

/-- `page.goto(url, ...)`; records the navigation on success. -/
def gotoR (u : String) : M Unit := fun e s =>
  if e.gotoOk then .ok ((), record (.gotoAct u) (bump s)) else .error (bump s)

/-- An element `evaluate` reading the computed selected-state of a toggle
button (src/apply/ashby_mac.ts `answerYesNo`); the read attempt is
recorded so theorems can count verification reads. -/
def evalSelR (l : LocE) : M Bool := fun e s =>
  match e.evalSel s.tick l with
  | none => .error (record (.evalReadAct l) (bump s))
  | some b => .ok (b, record (.evalReadAct l) (bump s))

/-- The `.catch(() => ({ isSelected: false, ... }))` form of `evalSelR`. -/
def evalSelC (l : LocE) : M Bool :=
  mCatch (evalSelR l) false

/-- An element `evaluate` producing an identity/tag string (the block-id
snapshot of `getYesNoQuestionBlock`, the tag-name probe of `debugField`). -/
def evalIdR (l : LocE) : M String := fun e s =>
  match e.evalId s.tick l with
  | none => .error (bump s)
  | some v => .ok (v, bump s)

/-- `locator.evaluateAll` reading input attributes (`pickInputInBlock`). -/
def evalAttrsR (l : LocE) : M (List InputAttrs) := fun e s =>
  match e.evalAttrs s.tick l with
  | none => .error (bump s)
  | some v => .ok (v, bump s)

/-- `page.evaluate(...)` of a whole-page script, tagged by call site. -/
def pageEvalR (tag : String) : M Bool := fun e s =>
  match e.pageEval s.tick with
  | none => .error (bump s)
  | some b => .ok (b, record (.pageEvalAct tag) (bump s))

/-- `page.url()` (synchronous accessor). -/
def pageUrlR : M String := fun e s =>
  .ok (e.pageUrl, s)

/-- The result of `new URL(page.url())`, as parsed by the environment
(`none` when the constructor throws). -/
def parsedUrlR : M (Option JsUrl) := fun e s =>
  .ok (e.parsedUrl, s)

/-! ## Shared Ashby locator/resolver helpers (src/apply/ashby.ts,
second document, lines 420-928; the mac file shares the identical ones) -/

/-- Selector used by the Ashby `uploadResumeIfPossible`. -/
def fileInputsSel : String := "input[type=file]"

/-- Loop body of `fillFirstVisible`: try each selector in order; a
visibility rejection or fill rejection is caught and the next selector is
tried. -/
def fillFirstVisibleGo (value : String) : List String → M Bool
  | [] => pure false
  | sel :: rest => do
    let hit ← mCatch
      (do
        let vis ← isVisR (.cssFirst sel)
        if vis then do
          fillR (.cssFirst sel) value
          pure true
        else pure false)
      false
    if hit then pure true else fillFirstVisibleGo value rest

/-- `fillFirstVisible` (ashby.ts lines 447-460): fill the first visible
match unless the value is falsy. -/
def fillFirstVisible (selectors : List String) (value : String) : M Bool :=
  if value = "" then pure false
  else fillFirstVisibleGo value selectors

/-- Loop body of `clickFirstVisible`. -/
def clickFirstVisibleGo : List String → M Bool
  | [] => pure false
  | sel :: rest => do
    let hit ← mCatch
      (do
        let vis ← isVisR (.cssFirst sel)
        if vis then do
          clickR (.cssFirst sel)
          pure true
        else pure false)
      false
    if hit then pure true else clickFirstVisibleGo rest

/-- `clickFirstVisible` (ashby.ts lines 462-473). -/
def clickFirstVisible (selectors : List String) : M Bool :=
  clickFirstVisibleGo selectors

/-- Loop body of `uploadResumeIfPossible`: try `inputs.nth(i)` for
`i < count`, catching each refused upload. -/
def uploadResumeGo (sel : String) (path : String) : Nat → Nat → M Bool
  | _, 0 => pure false
  | i, Nat.succ k => do
    let okv ← mCatch (do filesR (.nth (.cssAll sel) i) path; pure true) false
    if okv then pure true else uploadResumeGo sel path (i + 1) k

/-- `uploadResumeIfPossible` (ashby.ts lines 475-489; the Greenhouse and
Lever copies differ only in the selector string, passed here as `sel`).
The initial `inputs.count()` is awaited raw: its rejection propagates. -/
def uploadResumeIfPossible (sel : String) (path : String) : M Bool :=
  if path = "" then pure false
  else do
    let count ← countR (.cssAll sel)
    uploadResumeGo sel path 0 count

/-- Loop body of `readFirstVisibleValue`. -/
def readFirstVisibleValueGo : List String → M String
  | [] => pure ""
  | sel :: rest => do
    let r ← mCatch
      (do
        let vis ← isVisR (.cssFirst sel)
        if vis then do
          let v ← valC (.cssFirst sel)
          pure (some (jsTrim v))
        else pure (none : Option String))
      none
    match r with
    | some v => pure v
    | none => readFirstVisibleValueGo rest

/-- `readFirstVisibleValue` (ashby.ts lines 491-502): non-mutating read of
the first visible field's trimmed value. -/
def readFirstVisibleValue (selectors : List String) : M String :=
  readFirstVisibleValueGo selectors

/-- `shouldFill` (ashby.ts lines 504-506). -/
def shouldFill (existing : String) : Bool :=
  existing = "" || jsTrim existing = ""

/-- The `ancestor::*[self::div or self::section][lvl]` step used by the
question-block climbers. -/
def ancDS (base : LocE) (lvl : Nat) : LocE :=
  .anc base "div-section" lvl

/-- The anchored `getByText` locator for a question text. -/
def qAnchor (questionText : String) : LocE :=
  .firstOf (.textMatch (escapeRegex questionText))

/-- Climb loop of `getQuestionBlock` / `getRadioQuestionBlock`: at each
level take the `input` descendant count (999 when the count rejects) and
stop at the first level within the ceiling. -/
def questionBlockClimb (q : LocE) (ceiling : Nat) : Nat → Nat → M (Option LocE)
  | _, 0 => pure none
  | lvl, Nat.succ k => do
    let inputs ← countC (.insideCss (ancDS q lvl) "input") 999
    if inputs ≤ ceiling then pure (some (ancDS q lvl))
    else questionBlockClimb q ceiling (lvl + 1) k

/-- `getQuestionBlock` (ashby.ts lines 589-602): ceiling 40, at most 10
levels. -/
def getQuestionBlock (questionText : String) : M (Option LocE) :=
  mCatch
    (do
      let vis ← isVisR (qAnchor questionText)
      if !vis then pure none
      else questionBlockClimb (qAnchor questionText) 40 1 10)
    none

/-- `getRadioQuestionBlock` (ashby.ts lines 646-659): ceiling 60, at most
12 levels. -/
def getRadioQuestionBlock (questionText : String) : M (Option LocE) :=
  mCatch
    (do
      let vis ← isVisR (qAnchor questionText)
      if !vis then pure none
      else questionBlockClimb (qAnchor questionText) 60 1 12)
    none

/-- Climb loop of the non-mac `getYesNoQuestionBlock`: stop at the first
level holding both a Yes and a No button. -/
def yesNoBlockClimb (q : LocE) : Nat → Nat → M (Option LocE)
  | _, 0 => pure none
  | lvl, Nat.succ k => do
    let yes ← countC (.insideCss (ancDS q lvl) "button:has-text(Yes)") 0
    let no ← countC (.insideCss (ancDS q lvl) "button:has-text(No)") 0
    if yes > 0 && no > 0 then pure (some (ancDS q lvl))
    else yesNoBlockClimb q (lvl + 1) k

/-- `getYesNoQuestionBlock` (ashby.ts lines 630-644; the stateless,
non-mac variant). -/
def getYesNoQuestionBlock (questionText : String) : M (Option LocE) :=
  mCatch
    (do
      let vis ← isVisR (qAnchor questionText)
      if !vis then pure none
      else yesNoBlockClimb (qAnchor questionText) 1 10)
    none

/-- The xpath tail of the `following::input[...][1]` combobox probe. -/
def comboFollowingExpr : String :=
  "input[@role=combobox or @aria-autocomplete or contains(translate(@placeholder,START TYPING,start typing),start typing)][1]"

/-- The in-block combobox fallback selector. -/
def comboFallbackSel : String :=
  "input[role=combobox], input[aria-autocomplete], input[placeholder*=Start typing i]"

/-- `getComboboxInputForQuestion` (ashby.ts lines 604-628): the first
combobox-like input after the question node, scoped to its block. -/
def getComboboxInputForQuestion (questionText : String) : M (Option LocE) :=
  mCatch
    (do
      let vis ← isVisR (qAnchor questionText)
      if !vis then pure none
      else do
        let block? ← getQuestionBlock questionText
        match block? with
        | none => pure none
        | some block => do
          let qInBlock := LocE.firstOf (.insideText block (escapeRegex questionText))
          let inputAfter := LocE.following qInBlock comboFollowingExpr
          let v1 ← isVisC inputAfter
          if v1 then pure (some inputAfter)
          else do
            let fb := LocE.firstOf (.insideCss block comboFallbackSel)
            let v2 ← isVisC fb
            if v2 then pure (some fb) else pure none)
    none

/-- The `button:has-text(answer)` locator inside a Yes/No block. -/
def yesNoBtn (block : LocE) (answer : YN) : LocE :=
  .firstOf (.insideCss block ("button:has-text(" ++ answer.text ++ ")"))

/-- `selectRadioOption` (ashby.ts lines 679-702): exact text match first,
then substring containment, clicking the first visible hit. -/
def selectRadioOption (questionText : String) (optionText : String) : M Bool := do
  let block? ← getRadioQuestionBlock questionText
  match block? with
  | none => pure false
  | some block => do
    let optExact := LocE.firstOf (.insideText block ("^" ++ escapeRegex optionText ++ "$"))
    let hit1 ← mCatch
      (do
        let vis ← isVisR optExact
        if vis then do
          clickR optExact
          pure true
        else pure false)
      false
    if hit1 then pure true
    else do
      let optContains := LocE.firstOf (.insideText block (escapeRegex optionText))
      let hit2 ← mCatch
        (do
          let vis ← isVisR optContains
          if vis then do
            clickR optContains
            pure true
          else pure false)
        false
      if hit2 then pure true else pure false

/-- `answerYesNo` (ashby.ts lines 661-677; the non-mac variant): click the
desired button inside the Yes/No block, falling back to the radio-group
resolver when no block is found. -/
def answerYesNoAshby (questionText : String) (answer : YN) : M Bool := do
  let block? ← getYesNoQuestionBlock questionText
  match block? with
  | none => selectRadioOption questionText answer.text
  | some block =>
    mCatch
      (do
        let vis ← isVisR (yesNoBtn block answer)
        if vis then do
          clickR (yesNoBtn block answer)
          pure true
        else pure false)
      false

/-- The `[role='option']` selector of the combobox resolver. -/
def optionSel : String := "[role=option]"

/-- `fillComboboxForQuestion` (ashby.ts lines 704-748): click, clear, type
once, wait for options, then exact-match option / first rendered option /
keyboard fallback, in that strict order. -/
def fillComboboxForQuestion (questionText : String) (value : String) : M Bool :=
  if value = "" then pure false
  else do
    let input? ← getComboboxInputForQuestion questionText
    match input? with
    | none => pure false
    | some input =>
      mCatch
        (do
          let vis ← isVisR input
          if !vis then pure false
          else do
            clickR input
            fillR input ""
            typeR input value
            let optionsVisible ← mCatch
              (do
                waitForR (.firstOf (.cssAll optionSel))
                pure true)
              false
            let exact := LocE.firstOf (.filterText (.cssAll optionSel) value)
            let exVis ← isVisC exact
            if exVis then do
              clickR exact
              pure true
            else do
              let clickedFirst ←
                if optionsVisible then do
                  let firstOpt := LocE.firstOf (.cssAll optionSel)
                  let fVis ← isVisC firstOpt
                  if fVis then do
                    clickR firstOpt
                    pure true
                  else pure false
                else pure false
              if clickedFirst then pure true
              else do
                pressR input "ArrowDown"
                pressR input "Enter"
                pure true)
        false

/-- Option-text lists for `selectByVisibleOptionAnywhere`: an undefined
demographic value renders as a single falsy element, which the loop's
truthiness check skips (as in the source). -/
def JVal.asArray : JVal → List String
  | .undef => [""]
  | .str s => [s]
  | .arr l => l

/-- Loop body of `selectByVisibleOptionAnywhere`. -/
def selectByVisibleOptionAnywhereGo : List String → M Bool
  | [] => pure false
  | opt :: rest =>
    if opt = "" then selectByVisibleOptionAnywhereGo rest
    else do
      let exact := LocE.firstOf (.textMatch ("^" ++ escapeRegex opt ++ "$"))
      let hit1 ← mCatch
        (do
          let vis ← isVisR exact
          if vis then do
            clickR exact
            pure true
          else pure false)
        false
      if hit1 then pure true
      else do
        let cont := LocE.firstOf (.textMatch (escapeRegex opt))
        let hit2 ← mCatch
          (do
            let vis ← isVisR cont
            if vis then do
              clickR cont
              pure true
            else pure false)
          false
        if hit2 then pure true else selectByVisibleOptionAnywhereGo rest

/-- `selectByVisibleOptionAnywhere` (ashby.ts lines 750-775): try each
candidate phrasing, exact match then containment, across the whole page. -/
def selectByVisibleOptionAnywhere (optionText : JVal) : M Bool :=
  selectByVisibleOptionAnywhereGo optionText.asArray

/-- `toAshbyApplicationUrl` (ashby.ts lines 427-445) over the reduced URL
record (the `new URL` parse is environment-supplied; a parse failure is
the `none` case). -/
def toAshbyApplicationUrl (parsed : Option JsUrl) : Option JsUrl :=
  match parsed with
  | none => none
  | some u =>
    if !(jsIncludes u.hostname "ashbyhq.com") then none
    else if jsEndsWith u.pathname "/application" then some u
    else
      match (jsSplit (fun c => c = '/') u.pathname).filter (fun p => p ≠ "") with
      | company :: jobId :: _ =>
        some { u with pathname := "/" ++ company ++ "/" ++ jobId ++ "/application" }
      | _ => none

/-! ## The non-mac Ashby adapter (ashby.ts lines 777-928) -/

/-- Selector family for the combined name input. -/
def nameSelectors : List String :=
  ["input[autocomplete=name]", "input[name=name]", "input[placeholder*=Name i]"]

/-- Selector family for the first-name input. -/
def firstNameSelectors : List String :=
  ["input[autocomplete=given-name]", "input[name*=first i]",
   "input[placeholder*=First i]", "input[id*=first i]"]

/-- Selector family for the last-name input. -/
def lastNameSelectors : List String :=
  ["input[autocomplete=family-name]", "input[name*=last i]",
   "input[placeholder*=Last i]", "input[id*=last i]"]

/-- Selector family for the email input. -/
def emailSelectors : List String :=
  ["input[type=email]", "input[autocomplete=email]", "input[name=email]"]

/-- Selector family for the phone input. -/
def phoneSelectors : List String :=
  ["input[type=tel]", "input[autocomplete=tel]", "input[name=phone]"]

/-- Selector family for the LinkedIn link input. -/
def linkedinSelectors : List String :=
  ["input[name*=linkedin i]", "input[placeholder*=LinkedIn i]"]

/-- Selector family for the GitHub link input. -/
def githubSelectors : List String :=
  ["input[name*=github i]", "input[placeholder*=GitHub i]"]

/-- Selector family for the portfolio link input. -/
def portfolioSelectors : List String :=
  ["input[name*=portfolio i]", "input[name*=website i]",
   "input[placeholder*=Portfolio i]", "input[placeholder*=Website i]"]

/-- The EEO section-opener button selectors. -/
def eeoButtonSelectors : List String :=
  ["button:has-text(Voluntary)", "button:has-text(Self-Identification)",
   "button:has-text(Equal Opportunity)", "button:has-text(EEO)"]

/-- Locator tag for the initial base-field `Promise.race` of
`waitForSelector` calls (awaited as one caught step). -/
def raceFieldsLoc : LocE :=
  .cssAll "race:input[autocomplete=name] input[type=email] input"

/-- The full-stack-experience radio question text. -/
def expQuestion : String :=
  "How many years of professional (paid) experience do you have building production full-stack applications"

/-- The full-stack-experience radio answer text. -/
def expAnswer : String :=
  "I" ++ sqS ++ "m an expert (5+ years)"

/-- JS string coercion of a loose demographic value (`Array.toString`
joins with commas), used where the source feeds one to `normalizeYesNo`. -/
def JVal.asOptString : JVal → Option String
  | .undef => none
  | .str s => some s
  | .arr l => some (String.intercalate "," l)

/-- `profile.workAuthorization?.authorizedToWorkInUS ?? profile.defaults?.authorizedToWork`. -/
def authAnswerSrc (profile : Profile) : Option String :=
  (profile.workAuthorization.bind (·.authorizedToWorkInUS)).orElse
    (fun _ => profile.defaults.bind (·.authorizedToWork))

/-- `profile.sponsorship?.requiresSponsorshipNow ?? profile.defaults?.needsSponsorship`. -/
def sponsorNowSrc (profile : Profile) : Option String :=
  (profile.sponsorship.bind (·.requiresSponsorshipNow)).orElse
    (fun _ => profile.defaults.bind (·.needsSponsorship))

/-- `profile.sponsorship?.requiresSponsorshipInFuture ?? profile.defaults?.willNowOrInFutureRequireSponsorship`. -/
def sponsorFutureSrc (profile : Profile) : Option String :=
  (profile.sponsorship.bind (·.requiresSponsorshipInFuture)).orElse
    (fun _ => profile.defaults.bind (·.willNowOrInFutureRequireSponsorship))

/-- `profile.veteran ?? profile.eeo?.veteranStatus`. -/
def veteranSrc (profile : Profile) : Option String :=
  profile.veteran.orElse
    (fun _ => profile.eeo.bind (fun eeo => eeo.veteranStatus.asOptString))

/-- `profile.preferences?.willingToRelocateOrCommute ?? "Yes"` followed by
`pref.toLowerCase().startsWith("y")`. -/
def relocateAnswer (profile : Profile) : YN :=
  let pref := (profile.preferences.bind (·.willingToRelocateOrCommute)).getD "Yes"
  if jsStartsWith (jsToLower pref) "y" then .yes else .no

/-- `autofillAshby` (src/apply/ashby.ts lines 777-928, the variant with
the all-caps name fix): route normalization, base-field wait, resume
upload, identity fields with the fill-only-if-empty policy and the
all-caps repair, links, comboboxes, Yes/No questions, the experience
radio, and the EEO tiles. -/
def autofillAshby (profile : Profile) : M Unit := do
  let cur ← pageUrlR
  let parsed ← parsedUrlR
  let appUrl := toAshbyApplicationUrl parsed
  let _ ← (match appUrl with
    | some u =>
      if urlToString u ≠ cur then do
        gotoR (urlToString u)
        waitR
      else pure ()
    | none => (pure () : M Unit))
  let _ ← mCatch (do waitForR raceFieldsLoc; pure ()) ()
  let uploaded ← uploadResumeIfPossible fileInputsSel profile.resumePdfPath
  let _ ← (if uploaded then waitR else pure ())
  let existingName ← readFirstVisibleValue nameSelectors
  let existingFirst ← readFirstVisibleValue firstNameSelectors
  let existingLast ← readFirstVisibleValue lastNameSelectors
  let existingEmail ← readFirstVisibleValue emailSelectors
  let existingPhone ← readFirstVisibleValue phoneSelectors
  let fl := getFirstLastName profile
  let _ ← (if looksAllCapsName existingName then do
      let fixed := toProperNameCase existingName
      let _ ← fillFirstVisible nameSelectors fixed
      pure ()
    else if shouldFill existingName then do
      let _ ← fillFirstVisible nameSelectors profile.fullName
      pure ()
    else pure ())
  let _ ← (if shouldFill existingFirst then do
      let _ ← fillFirstVisible firstNameSelectors fl.first
      pure ()
    else pure ())
  let _ ← (if shouldFill existingLast then do
      let _ ← fillFirstVisible lastNameSelectors fl.last
      pure ()
    else pure ())
  let _ ← (if shouldFill existingEmail then do
      let _ ← fillFirstVisible emailSelectors profile.email
      pure ()
    else pure ())
  let _ ← (if shouldFill existingPhone then do
      let _ ← fillFirstVisible phoneSelectors profile.phone
      pure ()
    else pure ())
  let _ ← fillFirstVisible linkedinSelectors profile.linkedin
  let _ ← fillFirstVisible githubSelectors profile.github
  let _ ← fillFirstVisible portfolioSelectors profile.portfolio
  let _ ← fillComboboxForQuestion "Current Location" profile.location
  let _ ← (if optTruthy (profile.workAuthorization.bind (·.currentStatus)) then do
      let cs := (profile.workAuthorization.bind (·.currentStatus)).getD ""
      let _ ← fillComboboxForQuestion
        "What is your current U.S. work authorization status" cs
      let _ ← fillComboboxForQuestion "current U.S. work authorization status" cs
      let _ ← fillComboboxForQuestion "U.S. work authorization status" cs
      pure ()
    else pure ())
  let authYesNo := normalizeYesNo (authAnswerSrc profile) .yes
  let sponsorNow := normalizeYesNo (sponsorNowSrc profile) .yes
  let sponsorFuture := normalizeYesNo (sponsorFutureSrc profile) .yes
  let veteranYesNo := normalizeYesNo (veteranSrc profile) .no
  let _ ← answerYesNoAshby "Are you authorized to work" authYesNo
  let _ ← answerYesNoAshby "authorized to work" authYesNo
  let _ ← answerYesNoAshby "Do you require sponsorship" sponsorNow
  let _ ← answerYesNoAshby "Will you now or in the future require sponsorship" sponsorFuture
  let _ ← answerYesNoAshby "Do you identify as a veteran" veteranYesNo
  let _ ← answerYesNoAshby "Are you a veteran" veteranYesNo
  let prefAns := relocateAnswer profile
  let _ ← answerYesNoAshby "Are you willing to relocate" prefAns
  let _ ← answerYesNoAshby "Are you willing to commute" prefAns
  let _ ← answerYesNoAshby "willing to relocate" prefAns
  let _ ← answerYesNoAshby "willing to commute" prefAns
  let _ ← answerYesNoAshby "Are you excited to work from our" .yes
  let _ ← answerYesNoAshby "Are you excited to work in our office" .yes
  let _ ← selectRadioOption expQuestion expAnswer
  let _ ← (match profile.eeo with
    | some eeo => do
      let _ ← clickFirstVisible eeoButtonSelectors
      let _ ← selectByVisibleOptionAnywhere eeo.gender
      let _ ← selectByVisibleOptionAnywhere eeo.raceEthnicity
      let _ ← selectByVisibleOptionAnywhere eeo.hispanicOrLatino
      let _ ← selectByVisibleOptionAnywhere eeo.veteranStatus
      let _ ← selectByVisibleOptionAnywhere eeo.disabilityStatus
      pure ()
    | none => (pure () : M Unit))
  waitR

/-! ## The mac Ashby adapter (src/apply/ashby_mac.ts lines 1-735) -/

/-- Read of the module-level `answeredQuestionBlocks` registry. -/
def regHas (id : String) : M Bool := fun _ s =>
  .ok (id ∈ s.reg, s)

/-- `answeredQuestionBlocks.add(blockId)`. -/
def regAdd (id : String) : M Unit := fun _ s =>
  .ok ((), { s with reg := id :: s.reg })

/-- `fillFirstVisible` (ashby_mac.ts lines 32-51): like the non-mac one
with settle delays around the fill, all inside the per-selector catch. -/
def fillFirstVisibleMacGo (value : String) : List String → M Bool
  | [] => pure false
  | sel :: rest => do
    let hit ← mCatch
      (do
        let vis ← isVisR (.cssFirst sel)
        if vis then do
          waitR
          fillR (.cssFirst sel) value
          waitR
          pure true
        else pure false)
      false
    if hit then pure true else fillFirstVisibleMacGo value rest

/-- Entry of `fillFirstVisibleMacGo` with the falsy-value guard. -/
def fillFirstVisibleMac (selectors : List String) (value : String) : M Bool :=
  if value = "" then pure false
  else fillFirstVisibleMacGo value selectors

/-- Climb loop of the mac `getYesNoQuestionBlock` (ashby_mac.ts lines
196-219): on the first qualifying level, snapshot a block identity and
consult/update the process-lifetime registry. -/
def yesNoBlockClimbMac (q : LocE) : Nat → Nat → M (Option LocE)
  | _, 0 => pure none
  | lvl, Nat.succ k => do
    let yes ← countC (.insideCss (ancDS q lvl) "button:has-text(Yes)") 0
    let no ← countC (.insideCss (ancDS q lvl) "button:has-text(No)") 0
    if yes > 0 && no > 0 then do
      let blockId? ← mCatch
        (do
          let v ← evalIdR (ancDS q lvl)
          pure (some v))
        none
      match blockId? with
      | some id => do
        let answered ← regHas id
        if answered then pure none
        else do
          regAdd id
          pure (some (ancDS q lvl))
      | none => pure (some (ancDS q lvl))
    else yesNoBlockClimbMac q (lvl + 1) k

/-- `getYesNoQuestionBlock` (ashby_mac.ts lines 191-223; the variant with
the `answeredQuestionBlocks` registry). -/
def getYesNoQuestionBlockMac (questionText : String) : M (Option LocE) :=
  mCatch
    (do
      let vis ← isVisR (qAnchor questionText)
      if !vis then pure none
      else yesNoBlockClimbMac (qAnchor questionText) 1 10)
    none

/-- `answerYesNo` (ashby_mac.ts lines 240-329): read the computed
selected-state of both toggle buttons; skip the click when the desired
one is already (exclusively) selected, else click and re-verify once,
non-fatally. -/
def answerYesNoMac (questionText : String) (answer : YN) : M Bool := do
  let block? ← getYesNoQuestionBlockMac questionText
  match block? with
  | none => selectRadioOption questionText answer.text
  | some block =>
    mCatch
      (do
        let btn := yesNoBtn block answer
        let otherBtn := yesNoBtn block (if answer = .yes then .no else .yes)
        let vis ← isVisR btn
        if !vis then pure false
        else do
          waitR
          let btnSel ← evalSelC btn
          let otherSel ← evalSelC otherBtn
          if btnSel && !otherSel then pure true
          else
            if otherSel || !btnSel then do
              clickR btn
              waitR
              let _verify ← evalSelC btn
              pure true
            else pure true)
      false

/-- `fillComboboxForQuestion` (ashby_mac.ts lines 364-432): the same
strict fallback chain as the non-mac one, with extra settle delays. -/
def fillComboboxForQuestionMac (questionText : String) (value : String) : M Bool :=
  if value = "" then pure false
  else do
    let input? ← getComboboxInputForQuestion questionText
    match input? with
    | none => pure false
    | some input =>
      mCatch
        (do
          let vis ← isVisR input
          if !vis then pure false
          else do
            waitR
            waitR
            clickR input
            waitR
            fillR input ""
            waitR
            typeR input value
            waitR
            let optionsVisible ← mCatch
              (do
                waitForR (.firstOf (.cssAll optionSel))
                waitR
                pure true)
              false
            let exact := LocE.firstOf (.filterText (.cssAll optionSel) value)
            let exVis ← isVisC exact
            if exVis then do
              waitR
              clickR exact
              waitR
              pure true
            else do
              let clickedFirst ←
                if optionsVisible then do
                  let firstOpt := LocE.firstOf (.cssAll optionSel)
                  let fVis ← isVisC firstOpt
                  if fVis then do
                    waitR
                    clickR firstOpt
                    waitR
                    pure true
                  else pure false
                else pure false
              if clickedFirst then pure true
              else do
                pressR input "ArrowDown"
                waitR
                pressR input "Enter"
                waitR
                pure true)
        false

/-- Mac selector family for the combined name input. -/
def nameSelectorsMac : List String :=
  ["input[autocomplete=name]", "input[name=name]", "input[placeholder*=Name i]",
   "input[id*=name i]"]

/-- Mac selector family for the email input. -/
def emailSelectorsMac : List String :=
  ["input[type=email]", "input[autocomplete=email]", "input[name=email]",
   "input[id*=email i]"]

/-- Mac selector family for the phone input. -/
def phoneSelectorsMac : List String :=
  ["input[type=tel]", "input[autocomplete=tel]", "input[name=phone]",
   "input[id*=phone i]", "input[placeholder*=phone i]",
   "input[placeholder*=Phone i]"]

/-- Mac selector family for the LinkedIn input. -/
def linkedinSelectorsMac : List String :=
  ["input[name*=linkedin i]", "input[placeholder*=LinkedIn i]",
   "input[id*=linkedin i]", "input[type=url][name*=linkedin i]"]

/-- Rendering of `phone.replace(/(\d{3})(\d{3})(\d{4})/, "($1) $2-$3")`:
format the first run of ten digits, leaving the rest verbatim. -/
def formatPhoneGo : List Char → List Char
  | [] => []
  | c :: rest =>
    if ((c :: rest).take 10).length = 10 && ((c :: rest).take 10).all Char.isDigit then
      let m := (c :: rest).take 10
      ('(' :: m.take 3) ++ (')' :: ' ' :: (m.drop 3).take 3) ++
        ('-' :: (m.drop 6).take 4) ++ (c :: rest).drop 10
    else c :: formatPhoneGo rest

/-- JS phone-format `replace` over a string. -/
def jsFormatPhone (s : String) : String :=
  String.mk (formatPhoneGo s.data)

/-- The office-excitement question phrasings tried in order by the mac
adapter. -/
def officeQuestionPatterns : List String :=
  ["Mondays and Thursdays", "El Segundo", "San Francisco",
   "Are you excited to work from our", "Are you excited to work in our office",
   "excited to work from our", "excited to work in our office"]

/-- The office-pattern loop (`for (const pattern of ...) { if (await
answerYesNo(...)) break; }`). -/
def officeLoop (ans : YN) : List String → M Bool
  | [] => pure false
  | p :: rest => do
    let ok ← answerYesNoMac p ans
    if ok then pure true else officeLoop ans rest

/-- `autofillAshby` (src/apply/ashby_mac.ts lines 465-735): the mac
variant; in particular its final all-caps re-check rewrites the name field
with `profile.fullName` verbatim. -/
def autofillAshbyMac (profile : Profile) : M Unit := do
  let cur ← pageUrlR
  let parsed ← parsedUrlR
  let appUrl := toAshbyApplicationUrl parsed
  match appUrl with
  | some u =>
    if urlToString u ≠ cur then do
      gotoR (urlToString u)
      waitR
    else pure ()
  | none => pure ()
  mCatch (do waitForR raceFieldsLoc; pure ()) ()
  let fl := getFirstLastName profile
  let existingFirst ← readFirstVisibleValue firstNameSelectors
  let existingLast ← readFirstVisibleValue lastNameSelectors
  let _nameFilled ← fillFirstVisibleMac nameSelectorsMac profile.fullName
  if shouldFill existingFirst then do
    let _ ← fillFirstVisibleMac firstNameSelectors fl.first
    pure ()
  else pure ()
  if shouldFill existingLast then do
    let _ ← fillFirstVisibleMac lastNameSelectors fl.last
    pure ()
  else pure ()
  let _emailFilled ← fillFirstVisibleMac emailSelectorsMac profile.email
  let phoneFilled ← fillFirstVisibleMac phoneSelectorsMac profile.phone
  if !phoneFilled && profile.phone ≠ "" then do
    let _ ← fillFirstVisibleMac phoneSelectors (jsFormatPhone profile.phone)
    pure ()
  else pure ()
  let _linkedinFilled ← fillFirstVisibleMac linkedinSelectorsMac profile.linkedin
  let _ ← fillFirstVisibleMac githubSelectors profile.github
  let _ ← fillFirstVisibleMac portfolioSelectors profile.portfolio
  let _uploaded ← uploadResumeIfPossible fileInputsSel profile.resumePdfPath
  waitR
  waitR
  let locationFilled ← fillComboboxForQuestionMac "Current Location" profile.location
  if !locationFilled && profile.location ≠ "" then do
    waitR
    let _ ← fillComboboxForQuestionMac "Location" profile.location
    waitR
    let _ ← fillComboboxForQuestionMac "Where are you located" profile.location
    waitR
    let _ ← fillComboboxForQuestionMac "City" profile.location
    pure ()
  else pure ()
  if optTruthy (profile.workAuthorization.bind (·.currentStatus)) then do
    let cs := (profile.workAuthorization.bind (·.currentStatus)).getD ""
    waitR
    let authFilled ← fillComboboxForQuestionMac
      "What is your current U.S. work authorization status" cs
    if !authFilled then do
      waitR
      let _ ← fillComboboxForQuestionMac "current U.S. work authorization status" cs
      pure ()
    else pure ()
  else pure ()
  let authYesNo := normalizeYesNo (authAnswerSrc profile) .yes
  let sponsorNow := normalizeYesNo (sponsorNowSrc profile) .yes
  let sponsorFuture := normalizeYesNo (sponsorFutureSrc profile) .yes
  let veteranYesNo := normalizeYesNo (veteranSrc profile) .no
  let _ ← answerYesNoMac "Are you authorized to work" authYesNo
  let _ ← answerYesNoMac "authorized to work" authYesNo
  let _ ← answerYesNoMac "Do you require sponsorship" sponsorNow
  let _ ← answerYesNoMac "Will you now or in the future require sponsorship" sponsorFuture
  let _ ← answerYesNoMac "Do you identify as a veteran" veteranYesNo
  let _ ← answerYesNoMac "Are you a veteran" veteranYesNo
  let prefAns := relocateAnswer profile
  let r1 ← answerYesNoMac "Are you willing to relocate" prefAns
  let r2 ← if r1 then pure true else answerYesNoMac "Are you willing to commute" prefAns
  let r3 ← if r2 then pure true else answerYesNoMac "willing to relocate" prefAns
  let _relocateCommuteAnswered ←
    if r3 then pure true else answerYesNoMac "willing to commute" prefAns
  let excited := relocateAnswer profile
  let _officeAnswered ← officeLoop excited officeQuestionPatterns
  let _ ← selectRadioOption expQuestion expAnswer
  match profile.eeo with
  | some eeo => do
    let _ ← clickFirstVisible eeoButtonSelectors
    let _ ← selectByVisibleOptionAnywhere eeo.gender
    let _ ← selectByVisibleOptionAnywhere eeo.raceEthnicity
    let _ ← selectByVisibleOptionAnywhere eeo.hispanicOrLatino
    let _ ← selectByVisibleOptionAnywhere eeo.veteranStatus
    let _ ← selectByVisibleOptionAnywhere eeo.disabilityStatus
    pure ()
  | none => pure ()
  let existingName ← readFirstVisibleValue nameSelectorsMac
  if looksAllCapsName existingName && profile.fullName ≠ "" then do
    let _ ← fillFirstVisibleMac nameSelectorsMac profile.fullName
    pure ()
  else pure ()
  waitR

/-! ## Greenhouse helpers and adapter (src/apply/ashby.ts, third document,
lines 929-1590) -/

/-- A `page.locator("label", { hasText })` first-match. -/
def labelFirst (labelText : String) : LocE :=
  .firstOf (.cssHasText "label" (escapeRegex labelText))

/-- `fillInputIfEmpty` (ashby.ts lines 1066-1080; the Greenhouse variant
with the duplicated emptiness re-check). -/
def fillInputIfEmptyGh (sel : String) (value : String) : M Bool :=
  if value = "" then pure false
  else
    mCatch
      (do
        let vis ← isVisR (.cssFirst sel)
        if !vis then pure false
        else do
          let existing ← valC (.cssFirst sel)
          if existing ≠ "" && jsTrim existing ≠ "" then pure false
          else do
            let existingAgain ← valC (.cssFirst sel)
            if existingAgain ≠ "" && jsTrim existingAgain ≠ "" then pure false
            else do
              fillR (.cssFirst sel) value
              pure true)
      false

/-- The MyGreenhouse toast anchor. -/
def toastLoc : LocE :=
  .firstOf (.textMatch "Autofilled from MyGreenhouse")

/-- `myGreenhouseToastVisible` (ashby.ts lines 1112-1115). -/
def myGreenhouseToastVisible : M Bool :=
  isVisC toastLoc

/-- The Greenhouse phone-field locator. -/
def ghPhoneLoc : LocE :=
  .cssFirst "input[name=job_application[phone]], input[type=tel]"

/-- `fillPhoneIfEmptyOrFix` (ashby.ts lines 1121-1140): rewrite a doubled
autofill, keep any value already containing the profile phone's digits,
fill only a digit-free field.  The `loc.fill` calls are awaited raw, so
their rejection propagates. -/
def fillPhoneIfEmptyOrFix (phone : String) : M Unit :=
  if phone = "" then pure ()
  else do
    let vis ← isVisC ghPhoneLoc
    if !vis then pure ()
    else do
      let targetDigits := normalizeDigits phone
      let existing ← valC ghPhoneLoc
      let existingDigits := normalizeDigits existing
      if existingDigits ≠ "" && targetDigits ≠ "" &&
          jsIncludes existingDigits targetDigits then
        if existingDigits = targetDigits ++ targetDigits then do
          fillR ghPhoneLoc phone
          pure ()
        else pure ()
      else
        if existingDigits = "" then fillR ghPhoneLoc phone
        else pure ()

/-- The Greenhouse/Lever resume-input selector. -/
def ghFileSel : String :=
  "input[type=file][name*=resume i], input[type=file][id*=resume i], input[type=file]"

/-- Container path shared by the two `fillByLabelText` variants: the first
`input, textarea` inside the label's nearest div/section ancestor, filled
only if empty. -/
def fillByLabelContainer (label : LocE) (value : String) : M Bool := do
  let container := ancDS label 1
  let input := LocE.firstOf (.insideCss container "input, textarea")
  let vis ← isVisC input
  if vis then do
    let existing ← valC input
    if existing ≠ "" && jsTrim existing ≠ "" then pure false
    else do
      fillR input value
      pure true
  else pure false

/-- `fillByLabelText` (ashby.ts lines 1158-1180, Greenhouse variant; the
`for`-attribute path defers to the double-check `fillInputIfEmpty`). -/
def fillByLabelTextGh (labelText : String) (value : String) : M Bool :=
  if value = "" then pure false
  else
    mCatch
      (do
        let vis1 ← isVisC (labelFirst labelText)
        let label? ←
          if vis1 then pure (some (labelFirst labelText))
          else do
            let vis2 ← isVisR (qAnchor labelText)
            if !vis2 then pure (none : Option LocE)
            else pure (some (qAnchor labelText))
        match label? with
        | none => pure false
        | some label => do
          let forId ← attrR label "for"
          match forId with
          | some fid =>
            if fid ≠ "" then fillInputIfEmptyGh ("#" ++ fid) value
            else fillByLabelContainer label value
          | none => fillByLabelContainer label value)
      false

/-- `getFieldContainer` (ashby.ts lines 1182-1190): the label's nearest
ancestor holding a select/combobox-like control. -/
def getFieldContainer (label : LocE) : M (Option LocE) :=
  mCatch
    (do
      let container := LocE.anc label "field-container" 1
      let vis ← isVisC container
      if vis then pure (some container) else pure none)
    none

/-- The open-menu locator of `pickOptionFromOpenMenu`. -/
def menuLoc : LocE :=
  .firstOf (.cssAll "div.select__menu, [role=listbox], ul[role=listbox], div.select__menu-list")

/-- The option-node selector of the global fallbacks. -/
def optionNodesSel : String :=
  "div.select__option, [role=option]"

/-- `pickOptionFromOpenMenu` (ashby.ts lines 1192-1239): exact, then
word-bounded, then containment match in the menu, then the two global
fallbacks.  The clicks are awaited raw (callers catch). -/
def pickOptionFromOpenMenu (optionText : String) : M Bool := do
  let menuVisible ← mCatch (do waitForR menuLoc; pure true) false
  if !menuVisible then pure false
  else do
    let exact := LocE.firstOf (.insideText menuLoc ("^" ++ escapeRegex optionText ++ "$"))
    let v1 ← isVisC exact
    if v1 then do
      clickR exact
      pure true
    else do
      let wordM := LocE.firstOf (.insideText menuLoc ("\\b" ++ escapeRegex optionText ++ "\\b"))
      let v2 ← isVisC wordM
      if v2 then do
        clickR wordM
        pure true
      else do
        let cont := LocE.firstOf (.insideText menuLoc (escapeRegex optionText))
        let v3 ← isVisC cont
        if v3 then do
          clickR cont
          pure true
        else do
          let gExact := LocE.firstOf
            (.filterText (.cssAll optionNodesSel) ("^" ++ escapeRegex optionText ++ "$"))
          let v4 ← isVisC gExact
          if v4 then do
            clickR gExact
            pure true
          else do
            let gCont := LocE.firstOf
              (.filterText (.cssAll optionNodesSel) ("\\b" ++ escapeRegex optionText ++ "\\b"))
            let v5 ← isVisC gCont
            if v5 then do
              clickR gCont
              pure true
            else pure false

/-- `pickExactOptionFromOpenMenu` (ashby.ts lines 1241-1273). -/
def pickExactOptionFromOpenMenu (optionText : String) : M Bool := do
  let menuVisible ← mCatch (do waitForR menuLoc; pure true) false
  if !menuVisible then pure false
  else do
    let exact := LocE.firstOf (.insideCss menuLoc ("getByRole option exact " ++ optionText))
    let v1 ← isVisC exact
    if v1 then do
      clickR exact
      pure true
    else do
      let fbExact := LocE.firstOf (.insideText menuLoc ("^" ++ escapeRegex optionText ++ "$"))
      let v2 ← isVisC fbExact
      if v2 then do
        clickR fbExact
        pure true
      else do
        let gExact := LocE.firstOf
          (.filterText (.cssAll optionNodesSel) ("^" ++ escapeRegex optionText ++ "$"))
        let v3 ← isVisC gExact
        if v3 then do
          clickR gExact
          pure true
        else pure false

/-- The `following::select[1]` step. -/
def followingSelect (label : LocE) : LocE :=
  .following label "select[1]"

/-- The `following::` combobox-control step. -/
def followingControl (label : LocE) : LocE :=
  .following label "div.select__control or button[aria-haspopup=listbox] or input[aria-autocomplete or type=search] or role=combobox [1]"

/-- The in-container combobox-input selector. -/
def comboInputSel : String :=
  "input[aria-autocomplete], input[type=search], div.select__input input"

/-- The in-container combobox-control selector. -/
def containerComboSel : String :=
  "div.select__control, [role=combobox], button[aria-haspopup=listbox], input[aria-autocomplete], input[type=search]"

/-- Native-`select` option loop of `selectByLabelDropdownInternal` (each
`selectOption` is tried under its own catch). -/
def selOptionsLoop (select : LocE) : List String → M Bool
  | [] => pure false
  | opt :: rest =>
    if opt = "" then selOptionsLoop select rest
    else do
      let ok ← mCatch (do selOptR select opt; pure true) false
      if ok then pure true else selOptionsLoop select rest

/-- Combobox option loop of `selectByLabelDropdownInternal`: type the
candidate, optionally nudge with the keyboard, then try to pick it from
the open menu.  The fill/type are raw (the caller's try catches). -/
def comboOptionsLoop (container : LocE) (strict : Bool) : List String → M Bool
  | [] => pure false
  | opt :: rest =>
    if opt = "" then comboOptionsLoop container strict rest
    else do
      let input := LocE.firstOf (.insideCss container comboInputSel)
      let iv ← isVisC input
      if iv then do
        fillR input ""
        typeR input opt
        waitR
      else pure ()
      if !strict then do
        kbdC "ArrowDown"
        kbdC "Enter"
      else pure ()
      let picked ← pickOptionFromOpenMenu opt
      if picked then pure true else comboOptionsLoop container strict rest

/-- `selectByLabelDropdownInternal` (ashby.ts lines 1275-1343). -/
def selectByLabelDropdownInternal (label : LocE) (options : List String)
    (strict : Bool) : M Bool :=
  mCatch
    (do
      let lvis ← isVisC label
      if !lvis then pure false
      else do
        let container? ← getFieldContainer label
        match container? with
        | none => pure false
        | some container => do
          let selectValue ← valC (.firstOf (.insideCss container "select"))
          if selectValue ≠ "" && jsTrim selectValue ≠ "" then pure true
          else do
            let singleValue ← textC (.firstOf (.insideCss container ".select__single-value"))
            if singleValue ≠ "" && jsTrim singleValue ≠ "" then pure true
            else do
              let inputValue ← valC (.firstOf (.insideCss container comboInputSel))
              if inputValue ≠ "" && jsTrim inputValue ≠ "" then pure true
              else do
                let sVis ← isVisC (followingSelect label)
                let selRes ←
                  if sVis then selOptionsLoop (followingSelect label) options
                  else pure false
                if selRes then pure true
                else do
                  let cVis ← isVisC (followingControl label)
                  let combo :=
                    if cVis then followingControl label
                    else LocE.firstOf (.insideCss container containerComboSel)
                  let comboVis ← isVisC combo
                  if comboVis then do
                    clickR combo
                    let picked ← comboOptionsLoop container strict options
                    if picked then pure true
                    else do
                      kbdC "Escape"
                      pure false
                  else pure false)
    false

/-- `selectByLabelDropdown` (ashby.ts lines 1345-1352). -/
def selectByLabelDropdown (labelText : String) (options : List String) : M Bool := do
  let vis1 ← isVisC (labelFirst labelText)
  let label := if vis1 then labelFirst labelText else qAnchor labelText
  selectByLabelDropdownInternal label options false

/-- Exact-pick option loop of `selectByLabelDropdownExact`. -/
def comboExactLoop (container : LocE) : List String → M Bool
  | [] => pure false
  | opt :: rest =>
    if opt = "" then comboExactLoop container rest
    else do
      let input := LocE.firstOf (.insideCss container comboInputSel)
      let iv ← isVisC input
      if iv then do
        fillR input ""
        typeR input opt
        kbdC "Enter"
      else pure ()
      let picked ← pickExactOptionFromOpenMenu opt
      if picked then pure true else comboExactLoop container rest

/-- `selectByLabelDropdownExact` (ashby.ts lines 1354-1393). -/
def selectByLabelDropdownExact (labelText : String) (options : List String) : M Bool := do
  let vis1 ← isVisC (labelFirst labelText)
  let label := if vis1 then labelFirst labelText else qAnchor labelText
  mCatch
    (do
      let lvis ← isVisC label
      if !lvis then pure false
      else do
        let container? ← getFieldContainer label
        match container? with
        | none => pure false
        | some container => do
          let cVis ← isVisC (followingControl label)
          let combo :=
            if cVis then followingControl label
            else LocE.firstOf (.insideCss container containerComboSel)
          let comboVis ← isVisC combo
          if !comboVis then pure false
          else do
            clickR combo
            let picked ← comboExactLoop container options
            if picked then pure true
            else do
              kbdC "Escape"
              pure false)
    false

/-- The `^Country\b` / `^State\b` label anchors. -/
def countryLabelPat : String := "^Country\\b"

/-- Pattern for the State label. -/
def stateLabelPat : String := "^State\\b"

/-- `selectCountry` (ashby.ts lines 1395-1404). -/
def selectCountry (value : String) : M Bool := do
  let vis1 ← isVisC (.firstOf (.cssHasText "label" countryLabelPat))
  let label :=
    if vis1 then LocE.firstOf (.cssHasText "label" countryLabelPat)
    else LocE.firstOf (.textMatch countryLabelPat)
  let lvis ← isVisC label
  if !lvis then pure false
  else do
    let options := [value, value ++ " (+1)", "+1", "US (+1)"]
    let dd ← selectByLabelDropdownInternal label options true
    if dd then pure true
    else fillByLabelTextGh "Country" value

/-- `selectState` (ashby.ts lines 1422-1430). -/
def selectState (options : List String) : M Bool := do
  let vis1 ← isVisC (.firstOf (.cssHasText "label" stateLabelPat))
  let label :=
    if vis1 then LocE.firstOf (.cssHasText "label" stateLabelPat)
    else LocE.firstOf (.textMatch stateLabelPat)
  let lvis ← isVisC label
  if !lvis then pure false
  else do
    let dd ← selectByLabelDropdownInternal label options true
    if dd then pure true
    else fillByLabelTextGh "State" (options.headD "")

/-- `answerYesNo` (ashby.ts lines 1467-1485; the Greenhouse variant):
radio-style label click inside the nearest container, else the dropdown
resolver. -/
def answerYesNoGh (questionText : String) (answer : YN) : M Bool :=
  mCatch
    (do
      let label := qAnchor questionText
      let vis ← isVisR label
      if !vis then pure false
      else do
        let container := LocE.anc label "fieldset-div-section" 1
        let radioCount ← countC (.insideCss container "input[type=radio]") 0
        let clicked ←
          if radioCount > 0 then do
            let optLabel := LocE.firstOf
              (.insideText container ("^" ++ escapeRegex answer.text ++ "$"))
            let ov ← isVisC optLabel
            if ov then do
              clickR optLabel
              pure true
            else pure false
          else pure false
        if clicked then pure true
        else do
          let dd ← selectByLabelDropdown questionText [answer.text]
          if dd then pure true else pure false)
    false

/-- `autofillGreenhouse` (src/apply/ashby.ts lines 1506-1590). -/
def autofillGreenhouse (profile : Profile) : M Unit := do
  waitR
  let toast1 ← myGreenhouseToastVisible
  if toast1 then pure ()
  else do
    let fl := getFirstLastName profile
    let _ ← fillInputIfEmptyGh "input[name=job_application[first_name]]" fl.first
    let _ ← fillInputIfEmptyGh "input[name=job_application[last_name]]" fl.last
    let _ ← fillInputIfEmptyGh "input[name=job_application[email]]" profile.email
    fillPhoneIfEmptyOrFix profile.phone
    let _ ← fillInputIfEmptyGh "input[name*=first i]" fl.first
    let _ ← fillInputIfEmptyGh "input[name*=last i]" fl.last
    let _ ← fillInputIfEmptyGh "input[type=email]" profile.email
    fillPhoneIfEmptyOrFix profile.phone
    let _ ← fillByLabelTextGh "First Name" fl.first
    let _ ← fillByLabelTextGh "Last Name" fl.last
    let _ ← fillByLabelTextGh "Email" profile.email
    fillPhoneIfEmptyOrFix profile.phone
    let toast2 ← myGreenhouseToastVisible
    if toast2 then pure ()
    else do
      let _ ← selectCountry "United States"
      let stateOptions := extractStateOptions (some profile.location)
      let _ ← (if stateOptions.length > 0 then do
          let _ ← selectState stateOptions
          pure ()
        else pure ())
      let _ ← selectByLabelDropdown "Location" [profile.location]
      let _ ← selectByLabelDropdown "Location (City)" [profile.location]
      let _ ← selectByLabelDropdown "Current Location" [profile.location]
      let _ ← fillByLabelTextGh "Location" profile.location
      let _ ← fillByLabelTextGh "Location (City)" profile.location
      let _ ← fillByLabelTextGh "Current Location" profile.location
      let _ ← fillByLabelTextGh "LinkedIn" profile.linkedin
      let _ ← fillByLabelTextGh "LinkedIn Profile" profile.linkedin
      let _ ← fillByLabelTextGh "Website" profile.portfolio
      let _ ← fillByLabelTextGh "Portfolio" profile.portfolio
      let _ ← fillByLabelTextGh "GitHub" profile.github
      let uploaded ← uploadResumeIfPossible ghFileSel profile.resumePdfPath
      let _ ← (if !uploaded then do
          let _ ← mCatch (do let _ ← pageEvalR "scrollToBottom"; pure ()) ()
          let _ ← uploadResumeIfPossible ghFileSel profile.resumePdfPath
          pure ()
        else pure ())
      let authYesNo := normalizeYesNo (authAnswerSrc profile) .yes
      let sponsorNow := normalizeYesNo (sponsorNowSrc profile) .yes
      let sponsorFuture := normalizeYesNo (sponsorFutureSrc profile) .yes
      let veteranYesNo := normalizeYesNo (veteranSrc profile) .no
      let _ ← answerYesNoGh "Are you authorized to work" authYesNo
      let _ ← answerYesNoGh "authorized to work" authYesNo
      let _ ← answerYesNoGh "Do you require sponsorship" sponsorNow
      let _ ← answerYesNoGh "Will you now or in the future require sponsorship" sponsorFuture
      let _ ← answerYesNoGh "Do you identify as a veteran" veteranYesNo
      let _ ← answerYesNoGh "Are you a veteran" veteranYesNo
      let _ ← (match profile.eeo with
        | some eeo => do
          let _ ← selectByLabelDropdownExact "Gender" (normalizeGenderOptions eeo.gender)
          let _ ← selectByLabelDropdown "Are you Hispanic/Latino" eeo.hispanicOrLatino.asArray
          let _ ← selectByLabelDropdown "Race" eeo.raceEthnicity.asArray
          let _ ← selectByLabelDropdown "Please identify your race" eeo.raceEthnicity.asArray
          let _ ← selectByLabelDropdown "Veteran Status" (normalizeVeteranOptions eeo.veteranStatus)
          let _ ← selectByLabelDropdown "Disability Status" (normalizeDisabilityOptions eeo.disabilityStatus)
          pure ()
        | none => (pure () : M Unit))
      fillPhoneIfEmptyOrFix profile.phone

/-! ## Lever helpers and adapter (src/apply/ashby_mac.ts, third document,
lines 736-1180) -/

/-- The `ancestor::*[self::div or self::section or self::fieldset][lvl]`
step of the Lever climbers. -/
def ancDSF (base : LocE) (lvl : Nat) : LocE :=
  .anc base "div-section-fieldset" lvl

/-- Climb loop of `getQuestionBlockForInput`: first level with between one
and eight inputs/textareas and at most two radios. -/
def qbiClimb (q : LocE) : Nat → Nat → M (Option LocE)
  | _, 0 => pure none
  | lvl, Nat.succ k => do
    let inputCount ← countC (.insideCss (ancDSF q lvl) "input, textarea") 999
    let radioCount ← countC (.insideCss (ancDSF q lvl) "input[type=radio]") 0
    if inputCount > 0 && inputCount ≤ 8 && radioCount ≤ 2 then
      pure (some (ancDSF q lvl))
    else qbiClimb q (lvl + 1) k

/-- `getQuestionBlockForInput` (ashby_mac.ts lines 760-786). -/
def getQuestionBlockForInput (questionText : String) : M (Option LocE) :=
  mCatch
    (do
      let q := qAnchor questionText
      let vis ← isVisR q
      if !vis then pure none
      else do
        let lv ← isVisC (labelFirst questionText)
        let viaLabel? ←
          if lv then do
            let forId ← attrR (labelFirst questionText) "for"
            match forId with
            | some fid =>
              if fid ≠ "" then do
                let iv ← isVisC (.cssFirst ("#" ++ fid))
                if iv then pure (some (ancDSF (.cssFirst ("#" ++ fid)) 1))
                else pure (none : Option LocE)
              else pure none
            | none => pure none
          else pure none
        match viaLabel? with
        | some blk => pure (some blk)
        | none => qbiClimb q 1 10)
    none

/-- The `input, textarea` collection of a block. -/
def inputsInBlock (block : LocE) : LocE :=
  .insideCss block "input, textarea"

/-- The question-token extraction of `pickInputInBlock`
(`toLowerCase().split(/[^a-z0-9]+/g).filter(length >= 3)`). -/
def leverTokens (questionText : String) : List String :=
  (jsSplit (fun c => !(('a' ≤ c && c ≤ 'z') || ('0' ≤ c && c ≤ '9')))
    (jsToLower questionText)).filter (fun t => t.length ≥ 3)

/-- The concatenated, lowercased attribute text of one input (the
`evaluateAll` callback computes the lowercased fields). -/
def attrCombined (a : InputAttrs) : String :=
  a.nameAttr ++ " " ++ a.idAttr ++ " " ++ a.ariaAttr ++ " " ++
    a.placeholderAttr ++ " " ++ a.dataqaAttr

/-- First attribute record matching one of the question tokens. -/
def findAttrIdx (tokens : List String) : Nat → List InputAttrs → Option Nat
  | _, [] => none
  | i, a :: rest =>
    if tokens.any (fun t => jsIncludes (attrCombined a) t) then some i
    else findAttrIdx tokens (i + 1) rest

/-- `pickInputInBlock` (ashby_mac.ts lines 788-817).  Both the raw
`count()` and the raw `evaluateAll` can reject; the caller catches. -/
def pickInputInBlock (block : LocE) (questionText : String) : M (Option LocE) := do
  let count ← countR (inputsInBlock block)
  if count = 0 then pure none
  else if count = 1 then pure (some (.firstOf (inputsInBlock block)))
  else do
    let tokens := leverTokens questionText
    let attrs ← evalAttrsR (inputsInBlock block)
    match findAttrIdx tokens 0 attrs with
    | some i => pure (some (.nth (inputsInBlock block) i))
    | none => pure (some (.firstOf (inputsInBlock block)))

/-- `getInputNearQuestion` (ashby_mac.ts lines 819-828). -/
def getInputNearQuestion (questionText : String) : M (Option LocE) :=
  mCatch
    (do
      let block? ← getQuestionBlockForInput questionText
      match block? with
      | some block => do
        let input? ← pickInputInBlock block questionText
        match input? with
        | some input => do
          let iv ← isVisC input
          if iv then pure (some input) else pure (none : Option LocE)
        | none => pure none
      | none => pure none)
    none

/-- A `page.locator("fieldset", { hasText })` first-match. -/
def fieldsetFirst (pat : String) : LocE :=
  .firstOf (.cssHasText "fieldset" pat)

/-- Radio climb loop of `getRadioQuestionContainer`. -/
def radioClimbLv (q : LocE) : Nat → Nat → M (Option LocE)
  | _, 0 => pure none
  | lvl, Nat.succ k => do
    let radios ← countC (.insideCss (ancDSF q lvl) "input[type=radio]") 0
    if radios > 0 then pure (some (ancDSF q lvl))
    else radioClimbLv q (lvl + 1) k

/-- `getRadioQuestionContainer` (ashby_mac.ts lines 830-849). -/
def getRadioQuestionContainer (questionText : String) : M (Option LocE) :=
  mCatch
    (do
      let fs := fieldsetFirst (escapeRegex questionText)
      let fv ← isVisC fs
      let viaFs? ←
        if fv then do
          let radios ← countC (.insideCss fs "input[type=radio]") 0
          if radios > 0 then pure (some fs) else pure (none : Option LocE)
        else pure none
      match viaFs? with
      | some blk => pure (some blk)
      | none => do
        let q := qAnchor questionText
        let vis ← isVisR q
        if !vis then pure none
        else radioClimbLv q 1 10)
    none

/-- `debugField` (ashby_mac.ts lines 851-875): diagnostic reads; the
tag-name `evaluate` is awaited raw, so its rejection propagates out of the
debug path. -/
def debugField (labelText : String) : M Unit := do
  let lv ← isVisC (qAnchor labelText)
  if !lv then pure ()
  else do
    let nearInput? ← getInputNearQuestion labelText
    let radioContainer? ← getRadioQuestionContainer labelText
    let inputVisible ←
      match nearInput? with
      | some inp => isVisC inp
      | none => pure false
    let textareaVisible ←
      match nearInput? with
      | some inp => do
        let tag ← evalIdR inp
        pure (tag == "textarea")
      | none => pure false
    let _radioVisible ←
      match radioContainer? with
      | some rc => isVisC (.firstOf (.insideCss rc "input[type=radio]"))
      | none => pure false
    let _inputValue ←
      if inputVisible then
        match nearInput? with
        | some inp => valC inp
        | none => pure ""
      else pure ""
    let _textareaValue ←
      if textareaVisible then
        match nearInput? with
        | some inp => valC inp
        | none => pure ""
      else pure ""
    pure ()

/-- The labels probed by `debugLeverFields`. -/
def leverDebugLabels : List String :=
  ["Current location", "Portfolio URL",
   "What is your target cash compensation range",
   "Do you now, or will you in the future require visa support",
   "Do you require visa support", "State"]

/-- `debugLeverFields` (ashby_mac.ts lines 877-889). -/
def debugLeverFields : List String → M Unit
  | [] => pure ()
  | l :: rest => do
    debugField l
    debugLeverFields rest

/-- `answerRadioQuestion` (ashby_mac.ts lines 891-911). -/
def answerRadioQuestion (questionText : String) (optionText : String) : M Bool :=
  mCatch
    (do
      let container? ← getRadioQuestionContainer questionText
      match container? with
      | none => pure false
      | some container => do
        let pat := "^" ++ escapeRegex optionText ++ "$"
        let option := LocE.firstOf (.filterText (.insideCss container "label") pat)
        let ov ← isVisC option
        if ov then do
          clickR option
          pure true
        else do
          let fb := LocE.firstOf (.insideText container pat)
          let fv ← isVisC fb
          if fv then do
            clickR fb
            pure true
          else pure false)
    false

/-- `fillTextAreaByQuestion` (ashby_mac.ts lines 913-927). -/
def fillTextAreaByQuestion (questionText : String) (value : String) : M Bool :=
  if value = "" then pure false
  else
    mCatch
      (do
        let block? ← getQuestionBlockForInput questionText
        match block? with
        | none => pure false
        | some block => do
          let ta := LocE.firstOf (.insideCss block "textarea")
          let tv ← isVisC ta
          if tv then do
            let existing ← valC ta
            if existing ≠ "" && jsTrim existing ≠ "" then pure false
            else do
              fillR ta value
              pure true
          else pure false)
      false

/-- `fillInputIfEmpty` (ashby_mac.ts lines 929-941; the Lever variant with
a single emptiness check). -/
def fillInputIfEmptyLv (sel : String) (value : String) : M Bool :=
  if value = "" then pure false
  else
    mCatch
      (do
        let vis ← isVisR (.cssFirst sel)
        if !vis then pure false
        else do
          let existing ← valC (.cssFirst sel)
          if existing ≠ "" && jsTrim existing ≠ "" then pure false
          else do
            fillR (.cssFirst sel) value
            pure true)
      false

/-- The Lever location-input selector. -/
def leverLocSel : String :=
  "input.location-input, input[name=location], input[data-qa=location-input]"

/-- `fillLocationHard` (ashby_mac.ts lines 943-958). -/
def fillLocationHard (value : String) : M Bool :=
  if value = "" then pure false
  else
    mCatch
      (do
        let input := LocE.cssFirst leverLocSel
        let vis ← isVisR input
        if !vis then pure false
        else do
          let existing ← valC input
          if existing ≠ "" && jsTrim existing ≠ "" then pure false
          else do
            fillR input value
            pure true)
      false

/-- `fillLocationHardJs` (ashby_mac.ts lines 960-987): a whole-page
`evaluate` performing direct property injection plus the paired hidden
`selectedLocation` field; caught at the call site. -/
def fillLocationHardJs (value : String) : M Bool :=
  if value = "" then pure false
  else mCatch (pageEvalR "fillLocationHardJs") false

/-- `fillLocationHardType` (ashby_mac.ts lines 989-1003). -/
def fillLocationHardType (value : String) : M Bool :=
  if value = "" then pure false
  else
    mCatch
      (do
        let input := LocE.cssFirst leverLocSel
        let vis ← isVisR input
        if !vis then pure false
        else do
          clickR input
          let _ ← mCatch (do pressR input "Control+A"; pure ()) ()
          typeR input value
          let finalValue ← valC input
          pure (jsTrim finalValue ≠ ""))
      false

/-- `enforceLocationValue` (ashby_mac.ts lines 1005-1033). -/
def enforceLocationValue (value : String) : M Bool :=
  if value = "" then pure false
  else mCatch (pageEvalR "enforceLocationValue") false

/-- `fillPortfolioHard` (ashby_mac.ts lines 1035-1047). -/
def fillPortfolioHard (value : String) : M Bool :=
  if value = "" then pure false
  else
    mCatch
      (do
        let input := LocE.cssFirst "input[name=urls[Portfolio]]"
        let vis ← isVisR input
        if !vis then pure false
        else do
          let existing ← valC input
          if existing ≠ "" && jsTrim existing ≠ "" then pure false
          else do
            fillR input value
            pure true)
      false

/-- `fillByLabelText` (ashby_mac.ts lines 1049-1071; the Lever variant:
the `for`-attribute path defers to the single-check `fillInputIfEmpty`). -/
def fillByLabelTextLv (labelText : String) (value : String) : M Bool :=
  if value = "" then pure false
  else
    mCatch
      (do
        let vis1 ← isVisC (labelFirst labelText)
        let label? ←
          if vis1 then pure (some (labelFirst labelText))
          else do
            let vis2 ← isVisR (qAnchor labelText)
            if !vis2 then pure (none : Option LocE)
            else pure (some (qAnchor labelText))
        match label? with
        | none => pure false
        | some label => do
          let forId ← attrR label "for"
          match forId with
          | some fid =>
            if fid ≠ "" then fillInputIfEmptyLv ("#" ++ fid) value
            else fillByLabelContainer label value
          | none => fillByLabelContainer label value)
      false

/-- `fillByQuestionText` (ashby_mac.ts lines 1073-1088). -/
def fillByQuestionText (questionText : String) (value : String) : M Bool :=
  if value = "" then pure false
  else
    mCatch
      (do
        let input? ← getInputNearQuestion questionText
        match input? with
        | none => pure false
        | some input => do
          let tag ← mCatch (evalIdR input) ""
          if tag = "input" || tag = "textarea" then do
            let existing ← valC input
            if existing ≠ "" && jsTrim existing ≠ "" then pure false
            else do
              fillR input value
              pure true
          else pure false)
      false

/-- Strip trailing slashes (`pathname.replace(/\/+$/, "")`). -/
def stripTrailingSlashes (s : String) : String :=
  String.mk (s.data.reverse.dropWhile (fun c => c = '/')).reverse

/-- `toLeverApplyUrl` (ashby_mac.ts lines 1106-1116) over the reduced URL
record. -/
def toLeverApplyUrl (parsed : Option JsUrl) : Option JsUrl :=
  match parsed with
  | none => none
  | some u =>
    if !(jsIncludes u.hostname "jobs.lever.co") then none
    else if jsIncludes u.pathname "/apply" then some u
    else some { u with pathname := stripTrailingSlashes u.pathname ++ "/apply" }

/-- The `process.env.LEVER_DEBUG === "1"` flag. -/
def leverDebugR : M Bool := fun e s =>
  .ok (e.leverDebug, s)

/-- The canned visa-description answer text. -/
def visaDescAnswer : String :=
  "Currently on H-1B visa and would require visa transfer"

/-- `autofillLever` (src/apply/ashby_mac.ts lines 1118-1180). -/
def autofillLever (profile : Profile) : M Unit := do
  let cur ← pageUrlR
  let parsed ← parsedUrlR
  let _ ← (match toLeverApplyUrl parsed with
    | some u =>
      if urlToString u ≠ cur then gotoR (urlToString u) else pure ()
    | none => (pure () : M Unit))
  waitR
  let dbg ← leverDebugR
  let _ ← (if dbg then debugLeverFields leverDebugLabels else pure ())
  let fl := getFirstLastName profile
  let _ ← fillInputIfEmptyLv "input[name=name]" profile.fullName
  let _ ← fillInputIfEmptyLv "input[name=email]" profile.email
  let _ ← fillInputIfEmptyLv "input[name=phone]" profile.phone
  let _ ← fillByLabelTextLv "Full name" profile.fullName
  let _ ← fillByLabelTextLv "First name" fl.first
  let _ ← fillByLabelTextLv "Last name" fl.last
  let _ ← fillByLabelTextLv "Email" profile.email
  let _ ← fillByLabelTextLv "Phone" profile.phone
  let _ ← fillByLabelTextLv "Location" profile.location
  let _ ← fillByLabelTextLv "Current location" profile.location
  let _ ← fillByLabelTextLv "Current Location" profile.location
  let _ ← fillByQuestionText "Current location" profile.location
  let _ ← fillLocationHard profile.location
  let _ ← fillLocationHardJs profile.location
  waitR
  let _ ← fillLocationHardType profile.location
  waitR
  let _ ← enforceLocationValue profile.location
  let _ ← fillByLabelTextLv "LinkedIn" profile.linkedin
  let _ ← fillByLabelTextLv "LinkedIn Profile" profile.linkedin
  let _ ← fillByLabelTextLv "Website" profile.portfolio
  let _ ← fillByLabelTextLv "Portfolio URL" profile.portfolio
  let _ ← fillByLabelTextLv "Portfolio" profile.portfolio
  let _ ← fillByQuestionText "Portfolio URL" profile.portfolio
  let _ ← fillPortfolioHard profile.portfolio
  let _ ← fillByLabelTextLv "GitHub" profile.github
  let salary := (profile.defaults.bind (·.salaryExpectation)).getD ""
  let _ ← fillByLabelTextLv "target cash compensation range" salary
  let _ ← fillByLabelTextLv "target cash compensation" salary
  let _ ← fillByLabelTextLv "target compensation" salary
  let _ ← fillByLabelTextLv "target salary" salary
  let _ ← fillByQuestionText "What is your target cash compensation range" salary
  let _ ← answerRadioQuestion
    "Do you now, or will you in the future require visa support" "Yes"
  let _ ← answerRadioQuestion "Do you require visa support" "Yes"
  let _ ← fillTextAreaByQuestion "If yes, please describe" visaDescAnswer
  let _ ← fillTextAreaByQuestion "If yes, please describe." visaDescAnswer
  let stateName := extractStateName (some profile.location)
  let _ ← (if stateName ≠ "" then do
      let _ ← answerRadioQuestion "State" stateName
      pure ()
    else pure ())
  let _ ← uploadResumeIfPossible ghFileSel profile.resumePdfPath
  pure ()

/-! ## Concrete scenario environments -/

/-- A readable identity key for a locator (used as the environment's
block-identity snapshot answer). -/
def locKey : LocE → String
  | .cssFirst s => "cssFirst:" ++ s
  | .cssAll s => "cssAll:" ++ s
  | .cssHasText s p => "cssHasText:" ++ s ++ ":" ++ p
  | .nth b i => "nth:" ++ locKey b ++ ":" ++ toString i
  | .firstOf b => "first:" ++ locKey b
  | .textMatch p => "text:" ++ p
  | .roleBtn p => "roleBtn:" ++ p
  | .roleOption n => "roleOption:" ++ n
  | .insideCss o s => "in:" ++ locKey o ++ ":" ++ s
  | .insideText o p => "inText:" ++ locKey o ++ ":" ++ p
  | .filterText b p => "filter:" ++ locKey b ++ ":" ++ p
  | .anc b k l => "anc:" ++ locKey b ++ ":" ++ k ++ ":" ++ toString l
  | .following b x => "next:" ++ locKey b ++ ":" ++ x

/-- A benign page environment: everything visible, every field currently
empty, every interaction succeeds, page already on the canonical Ashby
application route.  Scenario environments override individual oracles. -/
def baseEnv : Env where
  visible := fun _ _ => some true
  inputVal := fun _ _ => some ""
  textVal := fun _ _ => some ""
  attr := fun _ _ _ => some none
  countQ := fun _ _ => some 1
  evalSel := fun _ _ => some false
  evalId := fun _ l => some (locKey l)
  evalAttrs := fun _ _ => some []
  pageEval := fun _ => some true
  fillOk := fun _ _ => true
  clickOk := fun _ _ => true
  typeOk := fun _ _ => true
  pressOk := fun _ _ => true
  kbdOk := fun _ => true
  selOptOk := fun _ _ => true
  filesOk := fun _ _ => true
  waitOk := fun _ => true
  waitForOk := fun _ _ => true
  gotoOk := true
  pageUrl := "jobs.ashbyhq.com/acme/123/application"
  parsedUrl := some { hostname := "jobs.ashbyhq.com", pathname := "/acme/123/application" }
  leverDebug := false
  isMacOs := false

/-- The initial run state. -/
def st0 : St :=
  { tick := 0, trace := [], reg := [] }

/-- An all-empty profile (scenarios override the fields they use). -/
def emptyProfile : Profile where
  fullName := ""
  firstName := none
  lastName := none
  email := ""
  phone := ""
  location := ""
  linkedin := ""
  github := ""
  portfolio := ""
  resumePdfPath := ""
  workAuthorization := none
  sponsorship := none
  defaults := none
  preferences := none
  veteran := none
  eeo := none

/-! ## Totality (no uncaught rejection) infrastructure -/

/-- A computation result that is not a raised rejection. -/
def MOk {α : Type} (x : Except St (α × St)) : Prop :=
  ∃ r, x = .ok r

/-- A computation that never raises in environment `e`. -/
def Tot (e : Env) (m : M α) : Prop :=
  ∀ s, MOk (m e s)

/-- The fills recorded in a trace. -/
def fills : List Act → List Act :=
  List.filter (fun a => match a with | Act.fillAct _ _ => true | _ => false)

/-- The value of the most recent fill performed on a locator, if any
(traces list the most recent action first). -/
def lastFillOn (l : LocE) : List Act → Option String
  | [] => none
  | Act.fillAct lf v :: rest => if lf = l then some v else lastFillOn l rest
  | _ :: rest => lastFillOn l rest

/-- The profile of the C1 end-to-end scenario (`fullName = "JANE DOE"`). -/
def janeProfile : Profile :=
  { emptyProfile with
    fullName := "JANE DOE"
    email := "jane@example.com"
    phone := "5551234567" }

/-- The name-field locator resolved by the adapters' first name selector. -/
def janeNameLoc : LocE :=
  .cssFirst "input[autocomplete=name]"

/-- The C1 page: a platform autofill has already populated the name field
with the all-caps `JANE DOE`, and the email and phone fields already hold
the profile's correct values; everything else reads as a non-empty
placeholder so the fill-only-if-empty policy leaves it alone. -/
def janeEnv : Env :=
  { baseEnv with
    inputVal := fun _ l =>
      if l = janeNameLoc then some "JANE DOE"
      else if l = LocE.cssFirst "input[type=email]" then some "jane@example.com"
      else if l = LocE.cssFirst "input[type=tel]" then some "5551234567"
      else some "x" }

/-- The C2 registry scenario: one Yes/No block per question anchor, with
all block-identity snapshots answering the fixed id `b1`. -/
def regEnv : Env :=
  { baseEnv with evalId := fun _ _ => some "b1" }

/-- The C3 counterexample page: no MyGreenhouse toast, a visible phone
field, and a phone field whose `fill` rejects (all other fills succeed). -/
def ceEnv : Env :=
  { baseEnv with
    visible := fun _ l => if l = toastLoc then some false else some true,
    fillOk := fun _ l => if l = ghPhoneLoc then false else true }

/-- The C4 page: a Yes/No block whose buttons expose a selected-state
signal; the desired button reads `d` and the other button reads `o` at the
pre-click snapshot (ticks 6 and 7), and every later read returns `true`. -/
def c4Env (d o : Bool) : Env :=
  { baseEnv with
    evalSel := fun t _ => if t = 6 then some d else if t = 7 then some o else some true }

/-- Visibility oracle of the C5 combobox page: the exact-match filtered
option reads `e`, the plain rendered-options list reads `f`, everything
else (the question anchor and the input) is visible. -/
def c5Vis (e f : Bool) : LocE → Option Bool
  | .firstOf (.filterText _ _) => some e
  | .firstOf (.cssAll _) => some f
  | _ => some true

/-- The C5 combobox page: `o` is whether the options list renders within
the wait's timeout, `e` whether an exact-match option is visible, `f`
whether the first rendered option is visible; all interactions succeed. -/
def c5Env (o e f : Bool) : Env :=
  { baseEnv with
    visible := fun _ l => c5Vis e f l,
    waitForOk := fun _ _ => o }

/-- The combobox input the resolver settles on for question `q` on the C5
page: the `following::input[...]` probe of the level-1 question block. -/
def c5Input (q : String) : LocE :=
  .following (.firstOf (.insideText (ancDS (qAnchor q) 1) (escapeRegex q)))
    comboFollowingExpr

/-- The C5 counterexample page: the exact-match option is visible but
clicking it rejects; everything else succeeds. -/
def c5CeEnv : Env :=
  { c5Env true true true with
    clickOk := fun _ l =>
      match l with | .firstOf (.filterText _ _) => false | _ => true }

/-- The C9 synthetic document: the level-`lvl` ancestor of any question
anchor holds `cnt lvl` descendant inputs; everything is visible. -/
def climbEnv (cnt : Nat → Nat) : Env :=
  { baseEnv with countQ := fun _ l =>
      match l with
      | .insideCss (.anc _ _ lvl) _ => some (cnt lvl)
      | _ => some 0 }

/-- The C10 page: a visible Greenhouse phone field currently holding
`existing`; all interactions succeed. -/
def phoneEnv (existing : String) : Env :=
  { baseEnv with inputVal := fun _ _ => some existing }

/-- ASCII lowering hits `'y'` exactly for `'y'` and `'Y'`. -/
theorem toLower_eq_y (c : Char) : c.toLower = 'y' ↔ c = 'y' ∨ c = 'Y' := by
  constructor
  · intro h
    unfold Char.toLower at h
    by_cases hc : c.toNat ≥ 65 ∧ c.toNat ≤ 90
    · rw [if_pos hc] at h
      right
      obtain ⟨hlo, hhi⟩ := hc
      obtain ⟨n, hn⟩ : ∃ n, c.toNat = n := ⟨_, rfl⟩
      rw [hn] at h hlo hhi
      interval_cases n <;> first
        | (exact absurd h (by decide))
        | (exact Char.eq_of_val_eq (UInt32.ext hn))
    · rw [if_neg hc] at h
      left; exact h
  · rintro (rfl | rfl) <;> rfl

/-- ASCII lowering hits `'n'` exactly for `'n'` and `'N'`. -/
theorem toLower_eq_n (c : Char) : c.toLower = 'n' ↔ c = 'n' ∨ c = 'N' := by
  constructor
  · intro h
    unfold Char.toLower at h
    by_cases hc : c.toNat ≥ 65 ∧ c.toNat ≤ 90
    · rw [if_pos hc] at h
      right
      obtain ⟨hlo, hhi⟩ := hc
      obtain ⟨n, hn⟩ : ∃ n, c.toNat = n := ⟨_, rfl⟩
      rw [hn] at h hlo hhi
      interval_cases n <;> first
        | (exact absurd h (by decide))
        | (exact Char.eq_of_val_eq (UInt32.ext hn))
    · rw [if_neg hc] at h
      left; exact h
  · rintro (rfl | rfl) <;> rfl

/-- Characterization of `normalizeYesNo` by the first character of the
trimmed input. -/
theorem normalizeYesNo_head (s : String) (fb : YN) :
    normalizeYesNo (some s) fb =
      (match (jsTrim s).data with
       | [] => fb
       | c :: _ =>
         if c = 'y' ∨ c = 'Y' then YN.yes
         else if c = 'n' ∨ c = 'N' then YN.no
         else fb) := by
  by_cases hs : s = ""
  · subst hs; rfl
  · have hd : (jsToLower (jsTrim s)).data = (jsTrim s).data.map Char.toLower := rfl
    simp only [normalizeYesNo, if_neg hs, jsStartsWith, hd]
    cases h : (jsTrim s).data with
    | nil => simp [List.isPrefixOf]
    | cons c cs =>
      have hy : "y".data = ['y'] := rfl
      have hn : "n".data = ['n'] := rfl
      simp only [hy, hn, List.map_cons, List.isPrefixOf, List.isPrefixOf_nil_left,
        Bool.and_true, beq_iff_eq]
      by_cases h1 : c = 'y' ∨ c = 'Y'
      · rw [if_pos (((toLower_eq_y c).mpr h1).symm)]
        rw [if_pos h1]
      · rw [if_neg (fun hh => h1 ((toLower_eq_y c).mp hh.symm))]
        rw [if_neg h1]
        by_cases h2 : c = 'n' ∨ c = 'N'
        · rw [if_pos (((toLower_eq_n c).mpr h2).symm)]
          rw [if_pos h2]
        · rw [if_neg (fun hh => h2 ((toLower_eq_n c).mp hh.symm))]
          rw [if_neg h2]

/-- C6: for every input and fallback, `normalizeYesNo` answers `Yes` when
the trimmed input starts with `y`/`Y`, `No` when it starts with `n`/`N`,
and the caller-supplied fallback for undefined input or any other text;
in particular `normalizeYesNo "yep" No = Yes` and
`normalizeYesNo undefined No = No`. -/
theorem claim_C6_normalizeYesNo :
    (∀ fb, normalizeYesNo none fb = fb) ∧
    (∀ (s : String) (fb : YN),
      normalizeYesNo (some s) fb =
        (match (jsTrim s).data with
         | [] => fb
         | c :: _ =>
           if c = 'y' ∨ c = 'Y' then YN.yes
           else if c = 'n' ∨ c = 'N' then YN.no
           else fb)) ∧
    normalizeYesNo (some "yep") YN.no = YN.yes ∧
    normalizeYesNo none YN.no = YN.no :=
  ⟨fun _ => rfl, normalizeYesNo_head, by decide, rfl⟩

/-- Tokens produced by `wsTokensGo` contain no whitespace characters. -/
theorem wsTokensGo_no_ws (l : List Char) (cur : List Char)
    (hcur : ∀ c ∈ cur, c.isWhitespace = false) :
    ∀ tok ∈ wsTokensGo l cur, ∀ c ∈ tok.data, c.isWhitespace = false := by
  induction l generalizing cur with
  | nil =>
    intro tok htok c hc
    simp only [wsTokensGo] at htok
    split at htok
    · simp at htok
    · simp only [List.mem_singleton] at htok
      subst htok
      exact hcur c (List.mem_reverse.mp hc)
  | cons a as ih =>
    intro tok htok
    simp only [wsTokensGo] at htok
    by_cases ha : a.isWhitespace
    · rw [if_pos ha] at htok
      by_cases hc : cur.isEmpty
      · rw [if_pos hc] at htok
        exact ih [] (by simp) tok htok
      · rw [if_neg hc] at htok
        rcases List.mem_cons.mp htok with rfl | htok'
        · intro c hcm
          exact hcur c (List.mem_reverse.mp hcm)
        · exact ih [] (by simp) tok htok'
    · rw [if_neg ha] at htok
      refine ih (a :: cur) ?_ tok htok
      intro c hcm
      rcases List.mem_cons.mp hcm with rfl | hcm'
      · exact Bool.eq_false_iff.mpr ha
      · exact hcur c hcm'

/-- A whitespace-free string is fixed by `jsTrim`. -/
theorem jsTrim_eq_self (tok : String)
    (h : ∀ c ∈ tok.data, c.isWhitespace = false) : jsTrim tok = tok := by
  unfold jsTrim
  have h1 : tok.data.dropWhile Char.isWhitespace = tok.data := by
    cases ht : tok.data with
    | nil => rfl
    | cons c cs =>
      rw [List.dropWhile_cons]
      rw [h c (by rw [ht]; exact List.mem_cons_self ..)]
      simp
  rw [h1]
  have h2 : tok.data.reverse.dropWhile Char.isWhitespace = tok.data.reverse := by
    cases ht : tok.data.reverse with
    | nil => rfl
    | cons c cs =>
      rw [List.dropWhile_cons]
      have hcmem : c ∈ tok.data :=
        List.mem_reverse.mp (ht ▸ List.mem_cons_self c cs)
      rw [h c hcmem]
      simp
  rw [h2, List.reverse_reverse]

/-- Pointwise-equal index-maps agree on a list. -/
theorem mapWithIdx_congr (f g : Nat → String → String) (l : List String)
    (i : Nat) (h : ∀ idx tok, tok ∈ l → f idx tok = g idx tok) :
    mapWithIdx f i l = mapWithIdx g i l := by
  induction l generalizing i with
  | nil => rfl
  | cons x xs ih =>
    simp only [mapWithIdx]
    rw [h i x (List.mem_cons_self ..),
      ih _ (fun idx tok ht => h idx tok (List.mem_cons_of_mem _ ht))]

/-- On trim-fixed tokens the source's per-token mapper agrees with the
claim's casing rule. -/
theorem properToken_eq_claim (idx : Nat) (tok : String)
    (htr : jsTrim tok = tok) :
    properToken idx tok = claimNameToken idx tok := by
  unfold properToken claimNameToken
  rw [htr]
  by_cases h1 : tok ∈ properSuffixes
  · have h1' : tok = "II" ∨ tok = "III" ∨ tok = "IV" ∨ tok = "V" := by
      simpa [properSuffixes] using h1
    rw [if_pos h1, if_pos h1']
  · have h1' : ¬(tok = "II" ∨ tok = "III" ∨ tok = "IV" ∨ tok = "V") := by
      simpa [properSuffixes] using h1
    rw [if_neg h1, if_neg h1']
    by_cases h2 : tok = "JR" ∨ tok = "SR"
    · rw [if_pos h2]
      rcases h2 with rfl | rfl
      · rfl
      · rfl
    · rw [if_neg h2]
      have h2a : tok ≠ "JR" := fun hh => h2 (Or.inl hh)
      have h2b : tok ≠ "SR" := fun hh => h2 (Or.inr hh)
      rw [if_neg h2a, if_neg h2b]
      by_cases h3 : idx ≠ 0 ∧ tok ∈ lowercaseParticles
      · have h3' : idx ≠ 0 ∧ (tok = "DE" ∨ tok = "DA" ∨ tok = "DOS" ∨
            tok = "DEL" ∨ tok = "VAN" ∨ tok = "VON" ∨ tok = "DI" ∨
            tok = "LA" ∨ tok = "LE") := by
          simpa [lowercaseParticles] using h3
        rw [if_pos h3, if_pos h3']
      · have h3' : ¬(idx ≠ 0 ∧ (tok = "DE" ∨ tok = "DA" ∨ tok = "DOS" ∨
            tok = "DEL" ∨ tok = "VAN" ∨ tok = "VON" ∨ tok = "DI" ∨
            tok = "LA" ∨ tok = "LE")) := by
          simpa [lowercaseParticles] using h3
        rw [if_neg h3, if_neg h3']

/-- C7: for every all-caps name, `toProperNameCase` applies the claim's
per-token casing rule to each whitespace-separated token; in particular
`LUDWIG VAN BEETHOVEN ↦ Ludwig van Beethoven` and
`ANNA-MARIA O'NEIL ↦ Anna-Maria O'Neil`. -/
theorem claim_C7_toProperNameCase :
    (∀ s, looksAllCapsName s = true →
      toProperNameCase s =
        String.intercalate " " (mapWithIdx claimNameToken 0 (splitWs s))) ∧
    toProperNameCase "LUDWIG VAN BEETHOVEN" = "Ludwig van Beethoven" ∧
    toProperNameCase ("ANNA-MARIA O" ++ sqS ++ "NEIL") =
      "Anna-Maria O" ++ sqS ++ "Neil" := by
  refine ⟨fun s _ => ?_, by decide, by decide⟩
  show String.intercalate " " (mapWithIdx properToken 0 (splitWs s)) = _
  congr 1
  apply mapWithIdx_congr
  intro idx tok htok
  refine properToken_eq_claim idx tok (jsTrim_eq_self tok ?_)
  exact wsTokensGo_no_ws s.data [] (by simp) tok htok

/-- Witness for C7 at the claim's own example. -/
theorem claim_C7_witness :
    looksAllCapsName "LUDWIG VAN BEETHOVEN" = true ∧
    toProperNameCase "LUDWIG VAN BEETHOVEN" =
      String.intercalate " "
        (mapWithIdx claimNameToken 0 (splitWs "LUDWIG VAN BEETHOVEN")) :=
  ⟨by decide, claim_C7_toProperNameCase.1 "LUDWIG VAN BEETHOVEN" (by decide)⟩

/-- A successful association-list lookup returns a stored pair. -/
theorem lookup_mem_pairs (tbl : List (String × String)) (k v : String)
    (h : tbl.lookup k = some v) : (k, v) ∈ tbl := by
  induction tbl with
  | nil => simp [List.lookup] at h
  | cons p ps ih =>
    rw [List.lookup] at h
    by_cases hk : k == p.1
    · have hk' : k = p.1 := by simpa using hk
      simp only [hk] at h
      cases h
      rw [hk']
      exact List.mem_cons.mpr (Or.inl Prod.mk.eta)
    · simp only [hk] at h
      exact List.mem_cons_of_mem _ (ih h)

/-- C8 counterexample: the claim says state extraction splits on the FIRST
comma, but `extractStateOptions` splits on every comma and keeps only the
second piece, so on `Austin, Texas, USA` the code returns
`[Texas, TX]` while the claimed rule yields `[Texas, USA]`. -/
theorem claim_C8_counterexample :
    extractStateOptions (some "Austin, Texas, USA") = ["Texas", "TX"] ∧
    claimStateCandidates "Austin, Texas, USA" = ["Texas, USA"] ∧
    extractStateOptions (some "Austin, Texas, USA") ≠
      claimStateCandidates "Austin, Texas, USA" := by
  refine ⟨by decide, by decide, by decide⟩

/-- C8 (amended): `extractStateOptions` splits the location on every comma,
trims the pieces, and uses the second piece as the state token: a token in
the 50-state table yields `[full name, abbreviation]`, an unmapped token
yields `[token]`, and fewer than two pieces yield `[]`; in particular
`Austin, Texas ↦ [Texas, TX]`, `Austin, TX ↦ [TX]`, `Austin ↦ []`. -/
theorem claim_C8_extractStateOptions :
    (∀ loc : String,
      extractStateOptions (some loc) =
        if loc = "" then []
        else
          match (jsSplit (fun c => c = ',') loc).map jsTrim with
          | _ :: stateTok :: _ =>
            (match stateAbbrTable.lookup stateTok with
             | some ab => [stateTok, ab]
             | none => [stateTok])
          | _ => []) ∧
    extractStateOptions none = [] ∧
    extractStateOptions (some "Austin, Texas") = ["Texas", "TX"] ∧
    extractStateOptions (some "Austin, TX") = ["TX"] ∧
    extractStateOptions (some "Austin") = [] := by
  refine ⟨fun loc => ?_, rfl, by decide, by decide, by decide⟩
  have hbody : extractStateOptions (some loc) =
      (if loc = "" then []
       else
         match (jsSplit (fun c => c = ',') loc).map jsTrim with
         | _ :: state :: _ =>
           (if ((stateAbbrTable.lookup state).getD "") ≠ "" then
             [state, (stateAbbrTable.lookup state).getD ""]
           else [state])
         | _ => []) := rfl
  rw [hbody]
  by_cases h : loc = ""
  · rw [if_pos h, if_pos h]
  · rw [if_neg h, if_neg h]
    cases hp : (jsSplit (fun c => c = ',') loc).map jsTrim with
    | nil => rfl
    | cons a rest =>
      cases rest with
      | nil => rfl
      | cons stateTok more =>
        cases hl : stateAbbrTable.lookup stateTok with
        | none => simp [hl]
        | some ab =>
          have hmem : (stateTok, ab) ∈ stateAbbrTable :=
            lookup_mem_pairs _ _ _ hl
          have hne : ab ≠ "" := by
            have hall : ∀ p ∈ stateAbbrTable, p.2 ≠ "" := by decide
            exact hall _ hmem
          simp [hl, hne]

/-! ## The Playwright environment model -/

/-- Pure computations never raise. -/
theorem tot_pure (e : Env) (a : α) : Tot e (pure a : M α) :=
  fun s => ⟨(a, s), rfl⟩

/-- Bind preserves totality. -/
theorem tot_bind {e : Env} {m : M α} {f : α → M β}
    (hm : Tot e m) (hf : ∀ a, Tot e (f a)) : Tot e (m >>= f) := by
  intro s
  obtain ⟨⟨a, s'⟩, h⟩ := hm s
  obtain ⟨r, h2⟩ := hf a s'
  refine ⟨r, ?_⟩
  show mBind m f e s = .ok r
  unfold mBind
  rw [h]
  exact h2

/-- A caught computation never raises. -/
theorem tot_mCatch (e : Env) (m : M α) (d : α) : Tot e (mCatch m d) := by
  intro s
  unfold mCatch
  cases h : m e s with
  | ok r => exact ⟨r, rfl⟩
  | error s' => exact ⟨(d, s'), rfl⟩

/-- Case split for a conditional computation. -/
theorem tot_ite {e : Env} {c : Prop} [Decidable c] {m1 m2 : M α}
    (h1 : Tot e m1) (h2 : Tot e m2) : Tot e (if c then m1 else m2) := by
  by_cases hc : c
  · rw [if_pos hc]; exact h1
  · rw [if_neg hc]; exact h2

/-- `textC` never raises. -/
theorem tot_textC (e : Env) (l : LocE) : Tot e (textC l) :=
  fun s => ⟨_, rfl⟩

/-- `kbdC` never raises. -/
theorem tot_kbdC (e : Env) (k : String) : Tot e (kbdC k) := by
  intro s
  unfold kbdC
  by_cases h : e.kbdOk s.tick = true
  · exact ⟨_, by rw [if_pos h]⟩
  · exact ⟨_, by rw [if_neg h]⟩

/-- `pageUrlR` never raises. -/
theorem tot_pageUrlR (e : Env) : Tot e pageUrlR :=
  fun s => ⟨_, rfl⟩

/-- `parsedUrlR` never raises. -/
theorem tot_parsedUrlR (e : Env) : Tot e parsedUrlR :=
  fun s => ⟨_, rfl⟩

/-- `leverDebugR` never raises. -/
theorem tot_leverDebugR (e : Env) : Tot e leverDebugR :=
  fun s => ⟨_, rfl⟩

/-- `regHas` never raises. -/
theorem tot_regHas (e : Env) (id : String) : Tot e (regHas id) :=
  fun s => ⟨_, rfl⟩

/-- `regAdd` never raises. -/
theorem tot_regAdd (e : Env) (id : String) : Tot e (regAdd id) :=
  fun s => ⟨_, rfl⟩

/-- `waitR` never raises when the wait oracle always succeeds. -/
theorem tot_waitR {e : Env} (hw : ∀ t, e.waitOk t = true) : Tot e waitR :=
  fun s => ⟨_, by unfold waitR; rw [hw s.tick, if_pos rfl]⟩

/-- `gotoR` never raises when navigation succeeds. -/
theorem tot_gotoR {e : Env} (hg : e.gotoOk = true) (u : String) : Tot e (gotoR u) :=
  fun s => ⟨_, by unfold gotoR; rw [hg, if_pos rfl]⟩

/-- `countR` never raises at a locator whose count oracle always answers. -/
theorem tot_countR {e : Env} {l : LocE}
    (hc : ∀ t, (e.countQ t l).isSome) : Tot e (countR l) := by
  intro s
  unfold countR
  cases hq : e.countQ s.tick l with
  | none => exact absurd (hq ▸ hc s.tick) (by simp)
  | some n => exact ⟨_, rfl⟩

/-- `fillR` never raises at a locator whose fill oracle always accepts. -/
theorem tot_fillR {e : Env} {l : LocE}
    (hf : ∀ t, e.fillOk t l = true) (v : String) : Tot e (fillR l v) :=
  fun s => ⟨_, by unfold fillR; rw [hf s.tick, if_pos rfl]⟩

/-- `fillFirstVisibleGo` never raises (each selector's body is caught). -/
theorem tot_fillFirstVisibleGo (e : Env) (v : String) (sels : List String) :
    Tot e (fillFirstVisibleGo v sels) := by
  induction sels with
  | nil => exact tot_pure e false
  | cons sel rest ih =>
    refine tot_bind (tot_mCatch e _ _) fun hit => ?_
    cases hit
    · exact ih
    · exact tot_pure e true

/-- `fillFirstVisible` never raises. -/
theorem tot_fillFirstVisible (e : Env) (sels : List String) (v : String) :
    Tot e (fillFirstVisible sels v) := by
  unfold fillFirstVisible
  exact tot_ite (tot_pure e false) (tot_fillFirstVisibleGo e v sels)

/-- `clickFirstVisibleGo` never raises. -/
theorem tot_clickFirstVisibleGo (e : Env) (sels : List String) :
    Tot e (clickFirstVisibleGo sels) := by
  induction sels with
  | nil => exact tot_pure e false
  | cons sel rest ih =>
    refine tot_bind (tot_mCatch e _ _) fun hit => ?_
    cases hit
    · exact ih
    · exact tot_pure e true

/-- `clickFirstVisible` never raises. -/
theorem tot_clickFirstVisible (e : Env) (sels : List String) :
    Tot e (clickFirstVisible sels) :=
  tot_clickFirstVisibleGo e sels

/-- The upload loop never raises (each attempt is caught). -/
theorem tot_uploadResumeGo (e : Env) (sel path : String) (n : Nat) :
    ∀ i, Tot e (uploadResumeGo sel path i n) := by
  induction n with
  | zero => exact fun i => tot_pure e false
  | succ k ih =>
    intro i
    refine tot_bind (tot_mCatch e _ _) fun okv => ?_
    cases okv
    · exact ih (i + 1)
    · exact tot_pure e true

/-- `uploadResumeIfPossible` never raises when the file-input count oracle
always answers (the raw `count()` is its only uncaught await). -/
theorem tot_uploadResumeIfPossible {e : Env} {sel : String}
    (hc : ∀ t, (e.countQ t (.cssAll sel)).isSome) (path : String) :
    Tot e (uploadResumeIfPossible sel path) := by
  unfold uploadResumeIfPossible
  refine tot_ite (tot_pure e false) ?_
  exact tot_bind (tot_countR hc) fun n => tot_uploadResumeGo e sel path n 0

/-- `readFirstVisibleValueGo` never raises. -/
theorem tot_readFirstVisibleValueGo (e : Env) (sels : List String) :
    Tot e (readFirstVisibleValueGo sels) := by
  induction sels with
  | nil => exact tot_pure e ""
  | cons sel rest ih =>
    refine tot_bind (tot_mCatch e _ _) fun r => ?_
    cases r with
    | some v => exact tot_pure e v
    | none => exact ih

/-- `readFirstVisibleValue` never raises. -/
theorem tot_readFirstVisibleValue (e : Env) (sels : List String) :
    Tot e (readFirstVisibleValue sels) :=
  tot_readFirstVisibleValueGo e sels

/-- `getQuestionBlock` never raises (whole body caught). -/
theorem tot_getQuestionBlock (e : Env) (q : String) :
    Tot e (getQuestionBlock q) :=
  tot_mCatch e _ _

/-- `getRadioQuestionBlock` never raises. -/
theorem tot_getRadioQuestionBlock (e : Env) (q : String) :
    Tot e (getRadioQuestionBlock q) :=
  tot_mCatch e _ _

/-- `getYesNoQuestionBlock` never raises. -/
theorem tot_getYesNoQuestionBlock (e : Env) (q : String) :
    Tot e (getYesNoQuestionBlock q) :=
  tot_mCatch e _ _

/-- `getComboboxInputForQuestion` never raises. -/
theorem tot_getComboboxInputForQuestion (e : Env) (q : String) :
    Tot e (getComboboxInputForQuestion q) :=
  tot_mCatch e _ _

/-- `selectRadioOption` never raises. -/
theorem tot_selectRadioOption (e : Env) (q opt : String) :
    Tot e (selectRadioOption q opt) := by
  unfold selectRadioOption
  refine tot_bind (tot_getRadioQuestionBlock e q) fun block? => ?_
  cases block? with
  | none => exact tot_pure e false
  | some block =>
    refine tot_bind (tot_mCatch e _ _) fun hit1 => ?_
    cases hit1
    · refine tot_bind (tot_mCatch e _ _) fun hit2 => ?_
      cases hit2
      · exact tot_pure e false
      · exact tot_pure e true
    · exact tot_pure e true

/-- The non-mac `answerYesNo` never raises. -/
theorem tot_answerYesNoAshby (e : Env) (q : String) (a : YN) :
    Tot e (answerYesNoAshby q a) := by
  unfold answerYesNoAshby
  refine tot_bind (tot_getYesNoQuestionBlock e q) fun block? => ?_
  cases block? with
  | none => exact tot_selectRadioOption e q a.text
  | some block => exact tot_mCatch e _ _

/-- `fillComboboxForQuestion` never raises. -/
theorem tot_fillComboboxForQuestion (e : Env) (q v : String) :
    Tot e (fillComboboxForQuestion q v) := by
  unfold fillComboboxForQuestion
  refine tot_ite (tot_pure e false) ?_
  refine tot_bind (tot_getComboboxInputForQuestion e q) fun input? => ?_
  cases input? with
  | none => exact tot_pure e false
  | some input => exact tot_mCatch e _ _

/-- `selectByVisibleOptionAnywhereGo` never raises. -/
theorem tot_selectByVisibleOptionAnywhereGo (e : Env) (opts : List String) :
    Tot e (selectByVisibleOptionAnywhereGo opts) := by
  induction opts with
  | nil => exact tot_pure e false
  | cons opt rest ih =>
    show Tot e (if opt = "" then _ else _)
    refine tot_ite ih ?_
    refine tot_bind (tot_mCatch e _ _) fun hit1 => ?_
    cases hit1
    · refine tot_bind (tot_mCatch e _ _) fun hit2 => ?_
      cases hit2
      · exact ih
      · exact tot_pure e true
    · exact tot_pure e true

/-- `selectByVisibleOptionAnywhere` never raises. -/
theorem tot_selectByVisibleOptionAnywhere (e : Env) (v : JVal) :
    Tot e (selectByVisibleOptionAnywhere v) :=
  tot_selectByVisibleOptionAnywhereGo e v.asArray

/-- `fillFirstVisibleMacGo` never raises. -/
theorem tot_fillFirstVisibleMacGo (e : Env) (v : String) (sels : List String) :
    Tot e (fillFirstVisibleMacGo v sels) := by
  induction sels with
  | nil => exact tot_pure e false
  | cons sel rest ih =>
    refine tot_bind (tot_mCatch e _ _) fun hit => ?_
    cases hit
    · exact ih
    · exact tot_pure e true

/-- `fillFirstVisibleMac` never raises. -/
theorem tot_fillFirstVisibleMac (e : Env) (sels : List String) (v : String) :
    Tot e (fillFirstVisibleMac sels v) := by
  unfold fillFirstVisibleMac
  exact tot_ite (tot_pure e false) (tot_fillFirstVisibleMacGo e v sels)

/-- The mac `getYesNoQuestionBlock` never raises. -/
theorem tot_getYesNoQuestionBlockMac (e : Env) (q : String) :
    Tot e (getYesNoQuestionBlockMac q) :=
  tot_mCatch e _ _

/-- The mac `answerYesNo` never raises. -/
theorem tot_answerYesNoMac (e : Env) (q : String) (a : YN) :
    Tot e (answerYesNoMac q a) := by
  unfold answerYesNoMac
  refine tot_bind (tot_getYesNoQuestionBlockMac e q) fun block? => ?_
  cases block? with
  | none => exact tot_selectRadioOption e q a.text
  | some block => exact tot_mCatch e _ _

/-- The mac `fillComboboxForQuestion` never raises. -/
theorem tot_fillComboboxForQuestionMac (e : Env) (q v : String) :
    Tot e (fillComboboxForQuestionMac q v) := by
  unfold fillComboboxForQuestionMac
  refine tot_ite (tot_pure e false) ?_
  refine tot_bind (tot_getComboboxInputForQuestion e q) fun input? => ?_
  cases input? with
  | none => exact tot_pure e false
  | some input => exact tot_mCatch e _ _

/-- The office-pattern loop never raises. -/
theorem tot_officeLoop (e : Env) (ans : YN) (pats : List String) :
    Tot e (officeLoop ans pats) := by
  induction pats with
  | nil => exact tot_pure e false
  | cons p rest ih =>
    refine tot_bind (tot_answerYesNoMac e p ans) fun ok => ?_
    cases ok
    · exact ih
    · exact tot_pure e true

/-- `fillInputIfEmptyGh` never raises. -/
theorem tot_fillInputIfEmptyGh (e : Env) (sel v : String) :
    Tot e (fillInputIfEmptyGh sel v) := by
  unfold fillInputIfEmptyGh
  exact tot_ite (tot_pure e false) (tot_mCatch e _ _)

/-- `myGreenhouseToastVisible` never raises. -/
theorem tot_myGreenhouseToastVisible (e : Env) :
    Tot e myGreenhouseToastVisible :=
  tot_mCatch e _ _

/-- `fillPhoneIfEmptyOrFix` never raises when the phone-field fill oracle
always accepts (its raw `fill` calls are its only uncaught awaits). -/
theorem tot_fillPhoneIfEmptyOrFix {e : Env}
    (hf : ∀ t, e.fillOk t ghPhoneLoc = true) (phone : String) :
    Tot e (fillPhoneIfEmptyOrFix phone) := by
  unfold fillPhoneIfEmptyOrFix
  refine tot_ite (tot_pure e ()) ?_
  refine tot_bind (tot_mCatch e _ _) fun vis => ?_
  refine tot_ite (tot_pure e ()) ?_
  refine tot_bind (tot_mCatch e _ _) fun existing => ?_
  refine tot_ite (tot_ite ?_ (tot_pure e ())) (tot_ite ?_ (tot_pure e ()))
  · exact tot_bind (tot_fillR hf phone) fun _ => tot_pure e ()
  · exact tot_fillR hf phone

/-- `fillByLabelContainer` never raises... it performs a raw fill; it is
total only where callers catch, so no standalone lemma is stated for it. -/
theorem tot_fillByLabelTextGh (e : Env) (lbl v : String) :
    Tot e (fillByLabelTextGh lbl v) := by
  unfold fillByLabelTextGh
  exact tot_ite (tot_pure e false) (tot_mCatch e _ _)

/-- `getFieldContainer` never raises. -/
theorem tot_getFieldContainer (e : Env) (l : LocE) :
    Tot e (getFieldContainer l) :=
  tot_mCatch e _ _

/-- `selectByLabelDropdownInternal` never raises (whole body caught). -/
theorem tot_selectByLabelDropdownInternal (e : Env) (l : LocE)
    (opts : List String) (strict : Bool) :
    Tot e (selectByLabelDropdownInternal l opts strict) :=
  tot_mCatch e _ _

/-- `selectByLabelDropdown` never raises. -/
theorem tot_selectByLabelDropdown (e : Env) (lbl : String) (opts : List String) :
    Tot e (selectByLabelDropdown lbl opts) := by
  unfold selectByLabelDropdown
  refine tot_bind (tot_mCatch e _ _) fun vis1 => ?_
  exact tot_selectByLabelDropdownInternal e _ opts false

/-- `selectByLabelDropdownExact` never raises. -/
theorem tot_selectByLabelDropdownExact (e : Env) (lbl : String) (opts : List String) :
    Tot e (selectByLabelDropdownExact lbl opts) := by
  unfold selectByLabelDropdownExact
  refine tot_bind (tot_mCatch e _ _) fun vis1 => ?_
  exact tot_mCatch e _ _

/-- `selectCountry` never raises. -/
theorem tot_selectCountry (e : Env) (v : String) :
    Tot e (selectCountry v) := by
  unfold selectCountry
  refine tot_bind (tot_mCatch e _ _) fun vis1 => ?_
  refine tot_bind (tot_mCatch e _ _) fun lvis => ?_
  refine tot_ite (tot_pure e false) ?_
  refine tot_bind (tot_selectByLabelDropdownInternal e _ _ true) fun dd => ?_
  cases dd
  · exact tot_fillByLabelTextGh e "Country" v
  · exact tot_pure e true

/-- `selectState` never raises. -/
theorem tot_selectState (e : Env) (opts : List String) :
    Tot e (selectState opts) := by
  unfold selectState
  refine tot_bind (tot_mCatch e _ _) fun vis1 => ?_
  refine tot_bind (tot_mCatch e _ _) fun lvis => ?_
  refine tot_ite (tot_pure e false) ?_
  refine tot_bind (tot_selectByLabelDropdownInternal e _ _ true) fun dd => ?_
  cases dd
  · exact tot_fillByLabelTextGh e "State" (opts.headD "")
  · exact tot_pure e true

/-- The Greenhouse `answerYesNo` never raises. -/
theorem tot_answerYesNoGh (e : Env) (q : String) (a : YN) :
    Tot e (answerYesNoGh q a) :=
  tot_mCatch e _ _

/-- `getQuestionBlockForInput` never raises. -/
theorem tot_getQuestionBlockForInput (e : Env) (q : String) :
    Tot e (getQuestionBlockForInput q) :=
  tot_mCatch e _ _

/-- `getInputNearQuestion` never raises. -/
theorem tot_getInputNearQuestion (e : Env) (q : String) :
    Tot e (getInputNearQuestion q) :=
  tot_mCatch e _ _

/-- `getRadioQuestionContainer` never raises. -/
theorem tot_getRadioQuestionContainer (e : Env) (q : String) :
    Tot e (getRadioQuestionContainer q) :=
  tot_mCatch e _ _

/-- `answerRadioQuestion` never raises. -/
theorem tot_answerRadioQuestion (e : Env) (q opt : String) :
    Tot e (answerRadioQuestion q opt) :=
  tot_mCatch e _ _

/-- `fillTextAreaByQuestion` never raises. -/
theorem tot_fillTextAreaByQuestion (e : Env) (q v : String) :
    Tot e (fillTextAreaByQuestion q v) := by
  unfold fillTextAreaByQuestion
  exact tot_ite (tot_pure e false) (tot_mCatch e _ _)

/-- `fillInputIfEmptyLv` never raises. -/
theorem tot_fillInputIfEmptyLv (e : Env) (sel v : String) :
    Tot e (fillInputIfEmptyLv sel v) := by
  unfold fillInputIfEmptyLv
  exact tot_ite (tot_pure e false) (tot_mCatch e _ _)

/-- `fillLocationHard` never raises. -/
theorem tot_fillLocationHard (e : Env) (v : String) :
    Tot e (fillLocationHard v) := by
  unfold fillLocationHard
  exact tot_ite (tot_pure e false) (tot_mCatch e _ _)

/-- `fillLocationHardJs` never raises. -/
theorem tot_fillLocationHardJs (e : Env) (v : String) :
    Tot e (fillLocationHardJs v) := by
  unfold fillLocationHardJs
  exact tot_ite (tot_pure e false) (tot_mCatch e _ _)

/-- `fillLocationHardType` never raises. -/
theorem tot_fillLocationHardType (e : Env) (v : String) :
    Tot e (fillLocationHardType v) := by
  unfold fillLocationHardType
  exact tot_ite (tot_pure e false) (tot_mCatch e _ _)

/-- `enforceLocationValue` never raises. -/
theorem tot_enforceLocationValue (e : Env) (v : String) :
    Tot e (enforceLocationValue v) := by
  unfold enforceLocationValue
  exact tot_ite (tot_pure e false) (tot_mCatch e _ _)

/-- `fillPortfolioHard` never raises. -/
theorem tot_fillPortfolioHard (e : Env) (v : String) :
    Tot e (fillPortfolioHard v) := by
  unfold fillPortfolioHard
  exact tot_ite (tot_pure e false) (tot_mCatch e _ _)

/-- `fillByLabelTextLv` never raises. -/
theorem tot_fillByLabelTextLv (e : Env) (lbl v : String) :
    Tot e (fillByLabelTextLv lbl v) := by
  unfold fillByLabelTextLv
  exact tot_ite (tot_pure e false) (tot_mCatch e _ _)

/-- `fillByQuestionText` never raises. -/
theorem tot_fillByQuestionText (e : Env) (q v : String) :
    Tot e (fillByQuestionText q v) := by
  unfold fillByQuestionText
  exact tot_ite (tot_pure e false) (tot_mCatch e _ _)

/-- Totality of the non-mac Ashby adapter, given that route navigation,
the top-level settle waits, and the file-input enumeration succeed. -/
theorem tot_autofillAshby {e : Env} (p : Profile)
    (hw : ∀ t, e.waitOk t = true) (hg : e.gotoOk = true)
    (hc : ∀ t, (e.countQ t (.cssAll fileInputsSel)).isSome) :
    Tot e (autofillAshby p) := by
  unfold autofillAshby
  refine tot_bind (tot_pageUrlR e) fun cur => ?_
  refine tot_bind (tot_parsedUrlR e) fun parsed => ?_
  refine tot_bind ?_ fun _ => ?_
  · cases toAshbyApplicationUrl parsed with
    | none => exact tot_pure e ()
    | some u =>
      refine tot_ite ?_ (tot_pure e ())
      exact tot_bind (tot_gotoR hg _) fun _ => tot_waitR hw
  · refine tot_bind (tot_mCatch e _ _) fun _ => ?_
    refine tot_bind (tot_uploadResumeIfPossible hc _) fun uploaded => ?_
    refine tot_bind (tot_ite (tot_waitR hw) (tot_pure e ())) fun _ => ?_
    refine tot_bind (tot_readFirstVisibleValue e _) fun existingName => ?_
    refine tot_bind (tot_readFirstVisibleValue e _) fun existingFirst => ?_
    refine tot_bind (tot_readFirstVisibleValue e _) fun existingLast => ?_
    refine tot_bind (tot_readFirstVisibleValue e _) fun existingEmail => ?_
    refine tot_bind (tot_readFirstVisibleValue e _) fun existingPhone => ?_
    refine tot_bind
      (tot_ite (tot_bind (tot_fillFirstVisible e _ _) fun _ => tot_pure e ())
        (tot_ite (tot_bind (tot_fillFirstVisible e _ _) fun _ => tot_pure e ())
          (tot_pure e ()))) fun _ => ?_
    refine tot_bind
      (tot_ite (tot_bind (tot_fillFirstVisible e _ _) fun _ => tot_pure e ())
        (tot_pure e ())) fun _ => ?_
    refine tot_bind
      (tot_ite (tot_bind (tot_fillFirstVisible e _ _) fun _ => tot_pure e ())
        (tot_pure e ())) fun _ => ?_
    refine tot_bind
      (tot_ite (tot_bind (tot_fillFirstVisible e _ _) fun _ => tot_pure e ())
        (tot_pure e ())) fun _ => ?_
    refine tot_bind
      (tot_ite (tot_bind (tot_fillFirstVisible e _ _) fun _ => tot_pure e ())
        (tot_pure e ())) fun _ => ?_
    refine tot_bind (tot_fillFirstVisible e _ _) fun _ => ?_
    refine tot_bind (tot_fillFirstVisible e _ _) fun _ => ?_
    refine tot_bind (tot_fillFirstVisible e _ _) fun _ => ?_
    refine tot_bind (tot_fillComboboxForQuestion e _ _) fun _ => ?_
    refine tot_bind
      (tot_ite
        (tot_bind (tot_fillComboboxForQuestion e _ _) fun _ =>
          tot_bind (tot_fillComboboxForQuestion e _ _) fun _ =>
            tot_bind (tot_fillComboboxForQuestion e _ _) fun _ => tot_pure e ())
        (tot_pure e ())) fun _ => ?_
    refine tot_bind (tot_answerYesNoAshby e _ _) fun _ => ?_
    refine tot_bind (tot_answerYesNoAshby e _ _) fun _ => ?_
    refine tot_bind (tot_answerYesNoAshby e _ _) fun _ => ?_
    refine tot_bind (tot_answerYesNoAshby e _ _) fun _ => ?_
    refine tot_bind (tot_answerYesNoAshby e _ _) fun _ => ?_
    refine tot_bind (tot_answerYesNoAshby e _ _) fun _ => ?_
    refine tot_bind (tot_answerYesNoAshby e _ _) fun _ => ?_
    refine tot_bind (tot_answerYesNoAshby e _ _) fun _ => ?_
    refine tot_bind (tot_answerYesNoAshby e _ _) fun _ => ?_
    refine tot_bind (tot_answerYesNoAshby e _ _) fun _ => ?_
    refine tot_bind (tot_answerYesNoAshby e _ _) fun _ => ?_
    refine tot_bind (tot_answerYesNoAshby e _ _) fun _ => ?_
    refine tot_bind (tot_selectRadioOption e _ _) fun _ => ?_
    refine tot_bind ?_ fun _ => tot_waitR hw
    cases p.eeo with
    | none => exact tot_pure e ()
    | some eeo =>
      refine tot_bind (tot_clickFirstVisible e _) fun _ => ?_
      refine tot_bind (tot_selectByVisibleOptionAnywhere e _) fun _ => ?_
      refine tot_bind (tot_selectByVisibleOptionAnywhere e _) fun _ => ?_
      refine tot_bind (tot_selectByVisibleOptionAnywhere e _) fun _ => ?_
      refine tot_bind (tot_selectByVisibleOptionAnywhere e _) fun _ => ?_
      exact tot_bind (tot_selectByVisibleOptionAnywhere e _) fun _ => tot_pure e ()

/-- Totality of the Greenhouse adapter, given that the top-level settle
wait, the file-input enumeration, and the raw phone-field fill of
`fillPhoneIfEmptyOrFix` succeed. -/
theorem tot_autofillGreenhouse {e : Env} (p : Profile)
    (hw : ∀ t, e.waitOk t = true)
    (hc : ∀ t, (e.countQ t (.cssAll ghFileSel)).isSome)
    (hf : ∀ t, e.fillOk t ghPhoneLoc = true) :
    Tot e (autofillGreenhouse p) := by
  unfold autofillGreenhouse
  refine tot_bind (tot_waitR hw) fun _ => ?_
  refine tot_bind (tot_myGreenhouseToastVisible e) fun toast1 => ?_
  cases toast1
  case true => exact tot_pure e ()
  case false =>
  refine tot_bind (tot_fillInputIfEmptyGh e _ _) fun _ => ?_
  refine tot_bind (tot_fillInputIfEmptyGh e _ _) fun _ => ?_
  refine tot_bind (tot_fillInputIfEmptyGh e _ _) fun _ => ?_
  refine tot_bind (tot_fillPhoneIfEmptyOrFix hf _) fun _ => ?_
  refine tot_bind (tot_fillInputIfEmptyGh e _ _) fun _ => ?_
  refine tot_bind (tot_fillInputIfEmptyGh e _ _) fun _ => ?_
  refine tot_bind (tot_fillInputIfEmptyGh e _ _) fun _ => ?_
  refine tot_bind (tot_fillPhoneIfEmptyOrFix hf _) fun _ => ?_
  refine tot_bind (tot_fillByLabelTextGh e _ _) fun _ => ?_
  refine tot_bind (tot_fillByLabelTextGh e _ _) fun _ => ?_
  refine tot_bind (tot_fillByLabelTextGh e _ _) fun _ => ?_
  refine tot_bind (tot_fillPhoneIfEmptyOrFix hf _) fun _ => ?_
  refine tot_bind (tot_myGreenhouseToastVisible e) fun toast2 => ?_
  cases toast2
  case true => exact tot_pure e ()
  case false =>
  refine tot_bind (tot_selectCountry e _) fun _ => ?_
  refine tot_bind
    (tot_ite (tot_bind (tot_selectState e _) fun _ => tot_pure e ())
      (tot_pure e ())) fun _ => ?_
  refine tot_bind (tot_selectByLabelDropdown e _ _) fun _ => ?_
  refine tot_bind (tot_selectByLabelDropdown e _ _) fun _ => ?_
  refine tot_bind (tot_selectByLabelDropdown e _ _) fun _ => ?_
  refine tot_bind (tot_fillByLabelTextGh e _ _) fun _ => ?_
  refine tot_bind (tot_fillByLabelTextGh e _ _) fun _ => ?_
  refine tot_bind (tot_fillByLabelTextGh e _ _) fun _ => ?_
  refine tot_bind (tot_fillByLabelTextGh e _ _) fun _ => ?_
  refine tot_bind (tot_fillByLabelTextGh e _ _) fun _ => ?_
  refine tot_bind (tot_fillByLabelTextGh e _ _) fun _ => ?_
  refine tot_bind (tot_fillByLabelTextGh e _ _) fun _ => ?_
  refine tot_bind (tot_fillByLabelTextGh e _ _) fun _ => ?_
  refine tot_bind (tot_uploadResumeIfPossible hc _) fun uploaded => ?_
  refine tot_bind
    (tot_ite
      (tot_bind (tot_mCatch e _ _) fun _ =>
        tot_bind (tot_uploadResumeIfPossible hc _) fun _ => tot_pure e ())
      (tot_pure e ())) fun _ => ?_
  refine tot_bind (tot_answerYesNoGh e _ _) fun _ => ?_
  refine tot_bind (tot_answerYesNoGh e _ _) fun _ => ?_
  refine tot_bind (tot_answerYesNoGh e _ _) fun _ => ?_
  refine tot_bind (tot_answerYesNoGh e _ _) fun _ => ?_
  refine tot_bind (tot_answerYesNoGh e _ _) fun _ => ?_
  refine tot_bind (tot_answerYesNoGh e _ _) fun _ => ?_
  refine tot_bind ?_ fun _ => tot_fillPhoneIfEmptyOrFix hf _
  cases p.eeo with
  | none => exact tot_pure e ()
  | some eeo =>
    refine tot_bind (tot_selectByLabelDropdownExact e _ _) fun _ => ?_
    refine tot_bind (tot_selectByLabelDropdown e _ _) fun _ => ?_
    refine tot_bind (tot_selectByLabelDropdown e _ _) fun _ => ?_
    refine tot_bind (tot_selectByLabelDropdown e _ _) fun _ => ?_
    refine tot_bind (tot_selectByLabelDropdown e _ _) fun _ => ?_
    exact tot_bind (tot_selectByLabelDropdown e _ _) fun _ => tot_pure e ()

/-- Bind through the `LEVER_DEBUG` gate: with the flag off, only the
`false` continuation is ever taken. -/
theorem tot_leverGate {e : Env} (hld : e.leverDebug = false) {k : Bool → M α}
    (hk : Tot e (k false)) : Tot e (leverDebugR >>= k) := by
  intro s
  obtain ⟨r, h⟩ := hk s
  refine ⟨r, ?_⟩
  show mBind leverDebugR k e s = .ok r
  unfold mBind leverDebugR
  rw [hld]
  exact h

/-- Totality of the Lever adapter, given that route navigation, the
top-level settle waits, and the file-input enumeration succeed and the
debug probe (whose tag-name `evaluate` is awaited raw) is off. -/
theorem tot_autofillLever {e : Env} (p : Profile)
    (hw : ∀ t, e.waitOk t = true) (hg : e.gotoOk = true)
    (hld : e.leverDebug = false)
    (hc : ∀ t, (e.countQ t (.cssAll ghFileSel)).isSome) :
    Tot e (autofillLever p) := by
  unfold autofillLever
  refine tot_bind (tot_pageUrlR e) fun cur => ?_
  refine tot_bind (tot_parsedUrlR e) fun parsed => ?_
  refine tot_bind ?_ fun _ => ?_
  · cases toLeverApplyUrl parsed with
    | none => exact tot_pure e ()
    | some u => exact tot_ite (tot_gotoR hg _) (tot_pure e ())
  · refine tot_bind (tot_waitR hw) fun _ => ?_
    refine tot_leverGate hld ?_
    refine tot_bind (tot_pure e ()) fun _ => ?_
    refine tot_bind (tot_fillInputIfEmptyLv e _ _) fun _ => ?_
    refine tot_bind (tot_fillInputIfEmptyLv e _ _) fun _ => ?_
    refine tot_bind (tot_fillInputIfEmptyLv e _ _) fun _ => ?_
    refine tot_bind (tot_fillByLabelTextLv e _ _) fun _ => ?_
    refine tot_bind (tot_fillByLabelTextLv e _ _) fun _ => ?_
    refine tot_bind (tot_fillByLabelTextLv e _ _) fun _ => ?_
    refine tot_bind (tot_fillByLabelTextLv e _ _) fun _ => ?_
    refine tot_bind (tot_fillByLabelTextLv e _ _) fun _ => ?_
    refine tot_bind (tot_fillByLabelTextLv e _ _) fun _ => ?_
    refine tot_bind (tot_fillByLabelTextLv e _ _) fun _ => ?_
    refine tot_bind (tot_fillByLabelTextLv e _ _) fun _ => ?_
    refine tot_bind (tot_fillByQuestionText e _ _) fun _ => ?_
    refine tot_bind (tot_fillLocationHard e _) fun _ => ?_
    refine tot_bind (tot_fillLocationHardJs e _) fun _ => ?_
    refine tot_bind (tot_waitR hw) fun _ => ?_
    refine tot_bind (tot_fillLocationHardType e _) fun _ => ?_
    refine tot_bind (tot_waitR hw) fun _ => ?_
    refine tot_bind (tot_enforceLocationValue e _) fun _ => ?_
    refine tot_bind (tot_fillByLabelTextLv e _ _) fun _ => ?_
    refine tot_bind (tot_fillByLabelTextLv e _ _) fun _ => ?_
    refine tot_bind (tot_fillByLabelTextLv e _ _) fun _ => ?_
    refine tot_bind (tot_fillByLabelTextLv e _ _) fun _ => ?_
    refine tot_bind (tot_fillByLabelTextLv e _ _) fun _ => ?_
    refine tot_bind (tot_fillByQuestionText e _ _) fun _ => ?_
    refine tot_bind (tot_fillPortfolioHard e _) fun _ => ?_
    refine tot_bind (tot_fillByLabelTextLv e _ _) fun _ => ?_
    refine tot_bind (tot_fillByLabelTextLv e _ _) fun _ => ?_
    refine tot_bind (tot_fillByLabelTextLv e _ _) fun _ => ?_
    refine tot_bind (tot_fillByLabelTextLv e _ _) fun _ => ?_
    refine tot_bind (tot_fillByLabelTextLv e _ _) fun _ => ?_
    refine tot_bind (tot_fillByQuestionText e _ _) fun _ => ?_
    refine tot_bind (tot_answerRadioQuestion e _ _) fun _ => ?_
    refine tot_bind (tot_answerRadioQuestion e _ _) fun _ => ?_
    refine tot_bind (tot_fillTextAreaByQuestion e _ _) fun _ => ?_
    refine tot_bind (tot_fillTextAreaByQuestion e _ _) fun _ => ?_
    refine tot_bind
      (tot_ite (tot_bind (tot_answerRadioQuestion e _ _) fun _ => tot_pure e ())
        (tot_pure e ())) fun _ => ?_
    exact tot_bind (tot_uploadResumeIfPossible hc _) fun _ => tot_pure e ()

/-! ## Claim scenarios and theorems -/

/-- C1 (amended): on the claim's scenario the non-mac Ashby adapter
(ashby.ts `autofillAshby`) detects the all-caps autofilled name and
rewrites the field to `Jane Doe`; that rewrite is the only field write of
the entire pass, so the already-correct email and phone fields are left
unchanged. -/
theorem claim_C1_allCapsNameFix :
    janeProfile.fullName = "JANE DOE" ∧
    (∀ t, janeEnv.inputVal t janeNameLoc = some "JANE DOE") ∧
    (∀ t, janeEnv.inputVal t (LocE.cssFirst "input[type=email]") =
      some janeProfile.email) ∧
    (∀ t, janeEnv.inputVal t (LocE.cssFirst "input[type=tel]") =
      some janeProfile.phone) ∧
    ∃ s : St, autofillAshby janeProfile janeEnv st0 = Except.ok ((), s) ∧
      fills s.trace = [Act.fillAct janeNameLoc "Jane Doe"] := by
  refine ⟨rfl, fun _ => rfl, fun _ => rfl, fun _ => rfl, _, rfl, ?_⟩
  decide

/-- C1 counterexample: the claim also cites the mac `autofillAshby`
(ashby_mac.ts), but that variant's all-caps re-check rewrites the name
field with `profile.fullName` verbatim, i.e. with `JANE DOE` itself, so
the field does not become `Jane Doe`. -/
theorem claim_C1_counterexample :
    janeProfile.fullName = "JANE DOE" ∧
    ∃ s : St, autofillAshbyMac janeProfile janeEnv st0 = Except.ok ((), s) ∧
      lastFillOn janeNameLoc s.trace = some "JANE DOE" ∧
      lastFillOn janeNameLoc s.trace ≠ some "Jane Doe" := by
  refine ⟨rfl, _, rfl, ?_, ?_⟩
  · decide
  · decide

/-- Characterization of the mac `getYesNoQuestionBlock` on the registry
scenario: a block whose identity is already registered resolves to `none`;
otherwise the level-1 block is returned and its identity registered. -/
theorem getYNmac_regEnv (q : String) (st : St) :
    getYesNoQuestionBlockMac q regEnv st =
      (if "b1" ∈ st.reg then Except.ok (none, { st with tick := st.tick + 4 })
       else Except.ok (some (ancDS (qAnchor q) 1),
         { st with tick := st.tick + 4, reg := "b1" :: st.reg })) := by
  by_cases hmem : "b1" ∈ st.reg <;>
    simp [getYesNoQuestionBlockMac, yesNoBlockClimbMac, mCatch, mBind, isVisR,
      countC, countR, evalIdR, regHas, regAdd, bump, regEnv, baseEnv, hmem,
      Bind.bind, Pure.pure, ancDS, qAnchor]

/-- C2 counterexample: calling the mac `getYesNoQuestionBlock` twice with the
same question on an unchanged page resolves a block the first time and `none`
the second, because the first call registered the block id in the module-level
registry. -/
theorem claim_C2_counterexample :
    ∃ s1 s2 : St,
      getYesNoQuestionBlockMac "Are you legally authorized" regEnv st0 =
        Except.ok (some (ancDS (qAnchor "Are you legally authorized") 1), s1) ∧
      s1.reg = ["b1"] ∧
      getYesNoQuestionBlockMac "Are you legally authorized" regEnv s1 =
        Except.ok (none, s2) := by
  refine ⟨{ st0 with tick := st0.tick + 4, reg := ["b1"] },
          { st0 with tick := st0.tick + 8, reg := ["b1"] }, ?_, rfl, ?_⟩ <;>
    rw [getYNmac_regEnv] <;> rfl

/-- C2: the mac resolver consults and updates the `answeredQuestionBlocks`
registry — an unregistered block is returned and registered, a registered one
yields `none` — while the non-mac resolver ignores the registry entirely and
leaves it unchanged. -/
theorem claim_C2_questionBlockRegistry :
    (∀ (q : String) (st : St), "b1" ∉ st.reg →
      getYesNoQuestionBlockMac q regEnv st =
        Except.ok (some (ancDS (qAnchor q) 1),
          { st with tick := st.tick + 4, reg := "b1" :: st.reg })) ∧
    (∀ (q : String) (st : St), "b1" ∈ st.reg →
      getYesNoQuestionBlockMac q regEnv st =
        Except.ok (none, { st with tick := st.tick + 4 })) ∧
    (∀ (q : String) (st : St),
      getYesNoQuestionBlock q regEnv st =
        Except.ok (some (ancDS (qAnchor q) 1),
          { st with tick := st.tick + 3 })) := by
  refine ⟨fun q st h => ?_, fun q st h => ?_, fun q st => ?_⟩
  · rw [getYNmac_regEnv, if_neg h]
  · rw [getYNmac_regEnv, if_pos h]
  · simp [getYesNoQuestionBlock, yesNoBlockClimb, mCatch, mBind, isVisR,
      countC, countR, evalIdR, bump, regEnv, baseEnv,
      Bind.bind, Pure.pure, ancDS, qAnchor]

/-- C3 counterexample: `autofillGreenhouse` raises when the raw (uncaught)
`loc.fill` inside `fillPhoneIfEmptyOrFix` rejects, so the entry point does
not return normally on every page. -/
theorem claim_C3_counterexample :
    ∃ s : St, autofillGreenhouse janeProfile ceEnv st0 = Except.error s :=
  ⟨_, rfl⟩

/-- C3 (amended): each public adapter entry point runs to completion and
returns normally provided the page-level waits, navigation and the
Greenhouse phone-field fill succeed, counts resolve, and Lever debug
logging is off; individual field failures inside the per-field `try/catch`
wrappers never propagate. -/
theorem claim_C3_adapters_total (e : Env) (p : Profile)
    (hw : ∀ t, e.waitOk t = true) (hg : e.gotoOk = true)
    (hld : e.leverDebug = false)
    (hcount : ∀ t l, (e.countQ t l).isSome)
    (hf : ∀ t, e.fillOk t ghPhoneLoc = true) :
    Tot e (autofillAshby p) ∧ Tot e (autofillGreenhouse p) ∧
      Tot e (autofillLever p) :=
  ⟨tot_autofillAshby p hw hg (fun t => hcount t _),
   tot_autofillGreenhouse p hw (fun t => hcount t _) hf,
   tot_autofillLever p hw hg hld (fun t => hcount t _)⟩

/-- Witness for C3: the hypotheses hold at the all-succeeding base
environment, so all three entry points are total there. -/
theorem claim_C3_witness :
    Tot baseEnv (autofillAshby emptyProfile) ∧
    Tot baseEnv (autofillGreenhouse emptyProfile) ∧
    Tot baseEnv (autofillLever emptyProfile) :=
  claim_C3_adapters_total baseEnv emptyProfile (fun _ => rfl) rfl rfl
    (fun _ _ => rfl) (fun _ => rfl)

/-- C4 (amended, mac variant): `answerYesNo` reads the selected state of
both controls before acting; when the desired control is already selected
and the other is not, the trace holds the two state reads and no click;
otherwise it additionally holds exactly one click of the desired control
followed by exactly one post-click verification read. -/
theorem claim_C4_answerYesNoIdempotent :
    ∀ (q : String) (d o : Bool),
      ∃ s : St,
        answerYesNoMac q .yes (c4Env d o) st0 = Except.ok (true, s) ∧
        (if d && !o then
          s.trace = [Act.evalReadAct (yesNoBtn (ancDS (qAnchor q) 1) .no),
                     Act.evalReadAct (yesNoBtn (ancDS (qAnchor q) 1) .yes)]
         else
          s.trace = [Act.evalReadAct (yesNoBtn (ancDS (qAnchor q) 1) .yes),
                     Act.clickAct (yesNoBtn (ancDS (qAnchor q) 1) .yes),
                     Act.evalReadAct (yesNoBtn (ancDS (qAnchor q) 1) .no),
                     Act.evalReadAct (yesNoBtn (ancDS (qAnchor q) 1) .yes)]) := by
  intro q d o
  cases d <;> cases o <;> exact ⟨_, rfl, rfl⟩

/-- C4 counterexample: the non-mac `answerYesNo` never reads selected
state — on the same page, with the desired control already selected and
the other not, it still clicks (the trace is exactly one click and holds
no state read), so the claimed idempotence does not hold for it. -/
theorem claim_C4_counterexample :
    ∃ s : St,
      answerYesNoAshby "Q1" .yes (c4Env true false) st0 = Except.ok (true, s) ∧
      s.trace = [Act.clickAct (yesNoBtn (ancDS (qAnchor "Q1") 1) .yes)] :=
  ⟨_, rfl, rfl⟩

/-- C5: the combobox resolver clicks, clears and types once, then follows
the strict fallback chain — the exact-match option when visible, else the
first rendered option when the options list rendered and is visible, else
the ArrowDown-then-Enter keyboard acceptance — each later tier only when
every earlier tier found nothing. -/
theorem claim_C5_comboboxFallbackChain :
    ∀ (q v : String), v ≠ "" → ∀ o e f : Bool,
      ∃ s : St,
        fillComboboxForQuestion q v (c5Env o e f) st0 = Except.ok (true, s) ∧
        s.trace =
          (if e then
            [Act.clickAct (LocE.firstOf (.filterText (.cssAll optionSel) v))]
           else if o && f then
            [Act.clickAct (LocE.firstOf (.cssAll optionSel))]
           else
            [Act.pressAct (c5Input q) "Enter",
             Act.pressAct (c5Input q) "ArrowDown"])
          ++ [Act.typeAct (c5Input q) v, Act.fillAct (c5Input q) "",
              Act.clickAct (c5Input q)] := by
  intro q v hv o e f
  simp only [fillComboboxForQuestion, if_neg hv]
  cases o <;> cases e <;> cases f <;> exact ⟨_, rfl, rfl⟩

/-- Witness for C5: the exact-match tier at question Q1 and value Texas. -/
theorem claim_C5_witness :
    ("Texas" : String) ≠ "" ∧
    ∃ s : St,
      fillComboboxForQuestion "Q1" "Texas" (c5Env true true true) st0 =
        Except.ok (true, s) :=
  ⟨by decide,
   (claim_C5_comboboxFallbackChain "Q1" "Texas" (by decide) true true
      true).elim fun s h => ⟨s, h.1⟩⟩

/-- C5 counterexample: when the exact-match option's click rejects, the
per-field catch makes the resolver return `false` with the typed text
still in the input — the trace ends at the `type` with no option click,
press or clearing after it — refuting the claim that the resolver never
leaves the input holding typed text without a confirmed selection. -/
theorem claim_C5_counterexample :
    ∃ s : St,
      fillComboboxForQuestion "Q1" "Texas" c5CeEnv st0 =
        Except.ok (false, s) ∧
      s.trace = [Act.typeAct (c5Input "Q1") "Texas",
                 Act.fillAct (c5Input "Q1") "",
                 Act.clickAct (c5Input "Q1")] :=
  ⟨_, rfl, rfl⟩

/-- One step of the ancestor climb on the C9 document. -/
theorem questionBlockClimb_step (cnt : Nat → Nat) (q : LocE) (c lvl k : Nat)
    (st : St) :
    questionBlockClimb q c lvl (k + 1) (climbEnv cnt) st =
      (if cnt lvl ≤ c then Except.ok (some (ancDS q lvl), bump st)
       else questionBlockClimb q c (lvl + 1) k (climbEnv cnt) (bump st)) := by
  by_cases h : cnt lvl ≤ c <;>
    simp [questionBlockClimb, countC, countR, mCatch, mBind, climbEnv, baseEnv,
      bump, ancDS, h, Bind.bind, Pure.pure]

/-- The ancestor climb on the C9 document returns the first level in
`range' lvl fuel` whose input count is within the ceiling. -/
theorem questionBlockClimb_find (cnt : Nat → Nat) (q : LocE) (c : Nat) :
    ∀ (fuel lvl : Nat) (st : St),
      ∃ s' : St,
        questionBlockClimb q c lvl fuel (climbEnv cnt) st =
          Except.ok
            (((List.range' lvl fuel).find? fun l => decide (cnt l ≤ c)).map
              (ancDS q), s') := by
  intro fuel
  induction fuel with
  | zero => intro lvl st; exact ⟨st, rfl⟩
  | succ k ih =>
    intro lvl st
    rw [questionBlockClimb_step, List.range'_succ lvl k 1]
    by_cases h : cnt lvl ≤ c
    · refine ⟨bump st, ?_⟩
      rw [if_pos h]
      simp [List.find?, h]
    · obtain ⟨s', hs'⟩ := ih (lvl + 1) (bump st)
      refine ⟨s', ?_⟩
      rw [if_neg h, hs']
      simp [List.find?, h]

/-- `mCatch` passes a successful body through unchanged. -/
theorem mCatch_ok_of {α : Type} (m : M α) (d : α) (e : Env) (s : St)
    (r : α × St) (h : m e s = Except.ok r) : mCatch m d e s = Except.ok r := by
  unfold mCatch
  rw [h]

/-- C9: on the C9 synthetic document, both block resolvers return the
first ancestor level whose descendant input count is within their ceiling
(40 within 10 levels for generic blocks, 60 within 12 for radio blocks) —
`List.find?` over the climbed range — so when no level qualifies they
return `none`, and any block they do return sits at a level whose count
is within the ceiling (never an oversized container). -/
theorem claim_C9_questionBlockCeiling :
    ∀ (cnt : Nat → Nat) (qt : String),
      (∃ s' : St,
        getQuestionBlock qt (climbEnv cnt) st0 =
          Except.ok
            (((List.range' 1 10).find? fun l => decide (cnt l ≤ 40)).map
              (ancDS (qAnchor qt)), s')) ∧
      (∃ s' : St,
        getRadioQuestionBlock qt (climbEnv cnt) st0 =
          Except.ok
            (((List.range' 1 12).find? fun l => decide (cnt l ≤ 60)).map
              (ancDS (qAnchor qt)), s')) ∧
      (∀ (blk : LocE) (s' : St),
        getQuestionBlock qt (climbEnv cnt) st0 = Except.ok (some blk, s') →
        ∃ lvl : Nat, blk = ancDS (qAnchor qt) lvl ∧ cnt lvl ≤ 40) := by
  intro cnt qt
  obtain ⟨s1, h1⟩ := questionBlockClimb_find cnt (qAnchor qt) 40 10 1 (bump st0)
  obtain ⟨s2, h2⟩ := questionBlockClimb_find cnt (qAnchor qt) 60 12 1 (bump st0)
  have hg : getQuestionBlock qt (climbEnv cnt) st0 =
      Except.ok
        (((List.range' 1 10).find? fun l => decide (cnt l ≤ 40)).map
          (ancDS (qAnchor qt)), s1) :=
    mCatch_ok_of _ _ _ _ _ h1
  refine ⟨⟨s1, hg⟩, ⟨s2, mCatch_ok_of _ _ _ _ _ h2⟩, ?_⟩
  intro blk s' hblk
  rw [hg] at hblk
  injection hblk with hpair
  injection hpair with hfst hsnd
  obtain ⟨lvl, hfind, hmap⟩ := Option.map_eq_some'.mp hfst
  have hp := List.find?_some hfind
  exact ⟨lvl, hmap.symm, of_decide_eq_true hp⟩

/-- Witness for C9: with the three nearest ancestors oversized (100
inputs) and every higher one small (5 inputs), the resolver skips to
level 3. -/
theorem claim_C9_witness :
    ∃ s' : St,
      getQuestionBlock "Q1" (climbEnv fun l => if l < 3 then 100 else 5)
          st0 =
        Except.ok (some (ancDS (qAnchor "Q1") 3), s') := by
  obtain ⟨⟨s', h⟩, -, -⟩ :=
    claim_C9_questionBlockCeiling (fun l => if l < 3 then 100 else 5) "Q1"
  refine ⟨s', ?_⟩
  rw [h]
  rfl

/-- A nonempty list is a substring of itself followed by anything. -/
theorem listIsSub_append_self (c : Char) (t m : List Char) :
    listIsSub (c :: t) (c :: (t ++ m)) = true := by
  have hpre : (c :: t).isPrefixOf (c :: (t ++ m)) = true := by
    rw [List.isPrefixOf_iff_prefix]
    exact List.prefix_append _ _
  simp [listIsSub, hpre]

/-- A doubled nonempty string `includes` the original. -/
theorem jsIncludes_doubled (t : String) (h : t ≠ "") :
    jsIncludes (t ++ t) t = true := by
  unfold jsIncludes
  rw [String.data_append]
  cases ht : t.data with
  | nil => exact absurd (congrArg String.mk ht) h
  | cons c rest => exact listIsSub_append_self c rest _

/-- A doubled nonempty string is nonempty. -/
theorem doubled_ne_empty (t : String) (h : t ≠ "") : ¬(t ++ t) = "" := by
  intro h0
  apply h
  have hdata := congrArg String.data h0
  rw [String.data_append] at hdata
  obtain ⟨h1, _⟩ := List.append_eq_nil.mp hdata
  exact congrArg String.mk h1

/-- C10: with a visible phone field and a digit-bearing profile phone,
`fillPhoneIfEmptyOrFix` rewrites the field to the profile phone when the
field digits are the profile digits doubled, fills it fresh when the field
holds no digits, and otherwise leaves it unchanged. -/
theorem claim_C10_phoneFix :
    ∀ (phone existing : String), phone ≠ "" → normalizeDigits phone ≠ "" →
      ∃ s : St,
        fillPhoneIfEmptyOrFix phone (phoneEnv existing) st0 =
          Except.ok ((), s) ∧
        fills s.trace =
          (if normalizeDigits existing =
              normalizeDigits phone ++ normalizeDigits phone then
            [Act.fillAct ghPhoneLoc phone]
           else if normalizeDigits existing = "" then
            [Act.fillAct ghPhoneLoc phone]
           else []) := by
  intro phone existing hp ht
  by_cases hd : normalizeDigits existing =
      normalizeDigits phone ++ normalizeDigits phone
  · have hne : ¬(normalizeDigits phone ++ normalizeDigits phone) = "" :=
      doubled_ne_empty _ ht
    have hinc : jsIncludes (normalizeDigits phone ++ normalizeDigits phone)
        (normalizeDigits phone) = true := jsIncludes_doubled _ ht
    refine ⟨⟨3, [Act.fillAct ghPhoneLoc phone], []⟩, ?_,
      by rw [if_pos hd]; rfl⟩
    simp [fillPhoneIfEmptyOrFix, hp, phoneEnv, baseEnv, isVisC, isVisR, valC,
      valR, fillR, mCatch, mBind, bump, record, st0, Bind.bind, Pure.pure,
      hne, ht, hinc, hd]
  · by_cases he : normalizeDigits existing = ""
    · refine ⟨⟨3, [Act.fillAct ghPhoneLoc phone], []⟩, ?_,
        by rw [if_neg hd, if_pos he]; rfl⟩
      simp [fillPhoneIfEmptyOrFix, hp, phoneEnv, baseEnv, isVisC, isVisR,
        valC, valR, fillR, mCatch, mBind, bump, record, st0, Bind.bind,
        Pure.pure, he]
    · refine ⟨⟨2, [], []⟩, ?_, by rw [if_neg hd, if_neg he]; rfl⟩
      by_cases hinc : jsIncludes (normalizeDigits existing)
          (normalizeDigits phone) = true <;>
        simp [fillPhoneIfEmptyOrFix, hp, phoneEnv, baseEnv, isVisC, isVisR,
          valC, valR, fillR, mCatch, mBind, bump, record, st0, Bind.bind,
          Pure.pure, he, ht, hd, hinc]

/-- Witness for C10: the doubled-autofill rewrite at a concrete phone. -/
theorem claim_C10_witness :
    ("5551234567" : String) ≠ "" ∧ normalizeDigits "5551234567" ≠ "" ∧
    ∃ s : St,
      fillPhoneIfEmptyOrFix "5551234567" (phoneEnv "55512345675551234567")
          st0 =
        Except.ok ((), s) ∧
      fills s.trace = [Act.fillAct ghPhoneLoc "5551234567"] := by
  refine ⟨by decide, by decide, ?_⟩
  obtain ⟨s, h1, h2⟩ := claim_C10_phoneFix "5551234567" "55512345675551234567"
    (by decide) (by decide)
  exact ⟨s, h1, by rw [h2]; rfl⟩

/-- Witness for C2: from an empty registry, the block of question Q1 is
resolved and its identity registered. -/
theorem claim_C2_witness :
    "b1" ∉ st0.reg ∧
    getYesNoQuestionBlockMac "Q1" regEnv st0 =
      Except.ok (some (ancDS (qAnchor "Q1") 1),
        { st0 with tick := st0.tick + 4, reg := "b1" :: st0.reg }) :=
  ⟨by decide, claim_C2_questionBlockRegistry.1 "Q1" st0 (by decide)⟩
